import Mathlib

/-!
Verification of the EdgeAnalysis scoring/analytics engine.

The development shallowly embeds the engine of the repository:
the per-match Impact Score (`calculateMatchImpact`), the EdgeScore ranking
(`rankPlayersInMatch`), the windowed aggregation (`recentAnalysis`,
`seasonAnalysis`), the stability classifier (`getStability`) and the
best-champion feedback rule (`bestChamp`, `bestChampRule`).

JavaScript numbers are modelled as rationals (`ℚ`); the integer counters
coming from the upstream API are natural numbers cast into `ℚ` inside the
formulas. `Math.min`/`Math.max` become `min`/`max`, `Math.round` becomes
`jsRound` (round half up, as for non-negative JS numbers), and the
insertion-ordered JS `Map`/object records become association lists with an
in-place update (`mapSet`, `bumpLane`, `bumpChamp`). The stable
`Array.prototype.sort` becomes `List.insertionSort`, which is stable with
the reflexive descending comparison used by the source.
-/

/-- One participant record of a match, mirroring the `MatchParticipant`
fields that the scoring engine reads. Counters absent upstream default
to 0, which the `ℕ` fields encode directly. -/
structure MatchParticipant where
  puuid : String
  championName : String
  champLevel : ℕ
  kills : ℕ
  deaths : ℕ
  assists : ℕ
  win : Bool
  totalMinionsKilled : ℕ
  neutralMinionsKilled : ℕ
  visionScore : ℕ
  visionWardsBoughtInGame : ℕ
  wardsPlaced : ℕ
  wardsKilled : ℕ
  goldEarned : ℕ
  totalDamageDealtToChampions : ℕ
  totalDamageTaken : ℕ
  teamPosition : String
  teamId : ℕ
  doubleKills : ℕ
  tripleKills : ℕ
  quadraKills : ℕ
  pentaKills : ℕ
  turretKills : ℕ
  inhibitorKills : ℕ
  dragonKills : ℕ
  baronKills : ℕ
  firstBloodKill : Bool
  firstBloodAssist : Bool
  firstTowerKill : Bool
  firstTowerAssist : Bool
  objectivesStolen : ℕ
  objectivesStolenAssists : ℕ
  damageDealtToObjectives : ℕ
  damageDealtToTurrets : ℕ
  damageDealtToBuildings : ℕ
  timeCCingOthers : ℕ
  totalHealsOnTeammates : ℕ
  totalDamageShieldedOnTeammates : ℕ
  longestTimeSpentLiving : ℕ
  soloKills : ℕ
  largestKillingSpree : ℕ
  deriving DecidableEq, Repr

/-- `calculateMatchImpact` from the source: the 0–10 Impact Score of one
participant in one match of the given duration (seconds). -/
def calculateMatchImpact (p : MatchParticipant) (gameDuration : ℚ) : ℚ :=
  let minutes := gameDuration / 60
  if minutes ≤ 0 then 0 else
  let kda : ℚ := if p.deaths = 0 then (p.kills + p.assists : ℕ)
                 else ((p.kills + p.assists : ℕ) : ℚ) / (p.deaths : ℚ)
  let kdaScore := min (kda / 3) 2.5
  let csPerMin := ((p.totalMinionsKilled + p.neutralMinionsKilled : ℕ) : ℚ) / minutes
  let csScore := min (csPerMin / 7) 1.5
  let visionPerMin := (p.visionScore : ℚ) / minutes
  let visionScore := min (visionPerMin / 1.5) 1
  let dmgPerMin := (p.totalDamageDealtToChampions : ℚ) / minutes
  let dmgScore := min (dmgPerMin / 800) 1.5
  let goldPerMin := (p.goldEarned : ℚ) / minutes
  let goldScore := min (goldPerMin / 450) 1
  let objKills := (p.turretKills : ℚ) * 0.3 + (p.inhibitorKills : ℚ) * 0.5 +
    (p.dragonKills : ℚ) * 0.6 + (p.baronKills : ℚ) * 1.0
  let objScore := min objKills 1.5
  let objDmgPerMin := (p.damageDealtToObjectives : ℚ) / minutes
  let objDmgScore := min (objDmgPerMin / 600) 1
  let winBonus : ℚ := if p.win then 1 else 0
  let deathPenalty := min (((p.deaths : ℚ) / minutes) * 0.8) 2
  let total := kdaScore + csScore + visionScore + dmgScore + goldScore +
    objScore + objDmgScore + winBonus - deathPenalty
  min (max total 0) 10

/-- The Impact Score formula as the specification words it (§4.1): sum the
eight pre-clamped terms, subtract the death penalty, clamp to [0,10];
return 0 when the duration in seconds is ≤ 0. Written from the spec text,
to be compared with `calculateMatchImpact` (which guards on minutes). -/
def impactSpec (p : MatchParticipant) (gameDurationSeconds : ℚ) : ℚ :=
  if gameDurationSeconds ≤ 0 then 0 else
  let minutes := gameDurationSeconds / 60
  let kdaVal : ℚ := if p.deaths = 0 then (p.kills + p.assists : ℕ)
                    else ((p.kills + p.assists : ℕ) : ℚ) / (p.deaths : ℚ)
  let kdaTerm := min (kdaVal / 3) 2.5
  let csTerm := min (((p.totalMinionsKilled + p.neutralMinionsKilled : ℕ) : ℚ) / minutes / 7) 1.5
  let visionTerm := min ((p.visionScore : ℚ) / minutes / 1.5) 1
  let dmgTerm := min ((p.totalDamageDealtToChampions : ℚ) / minutes / 800) 1.5
  let goldTerm := min ((p.goldEarned : ℚ) / minutes / 450) 1
  let objTerm := min ((p.turretKills : ℚ) * 0.3 + (p.inhibitorKills : ℚ) * 0.5 +
    (p.dragonKills : ℚ) * 0.6 + (p.baronKills : ℚ) * 1.0) 1.5
  let objDmgTerm := min ((p.damageDealtToObjectives : ℚ) / minutes / 600) 1
  let winTerm : ℚ := if p.win then 1 else 0
  let penalty := min (((p.deaths : ℚ) / minutes) * 0.8) 2
  min (max (kdaTerm + csTerm + visionTerm + dmgTerm + goldTerm +
    objTerm + objDmgTerm + winTerm - penalty) 0) 10

/-- A participant with every field zeroed, used to build concrete inputs. -/
def baseP : MatchParticipant where
  puuid := ""
  championName := ""
  champLevel := 0
  kills := 0
  deaths := 0
  assists := 0
  win := false
  totalMinionsKilled := 0
  neutralMinionsKilled := 0
  visionScore := 0
  visionWardsBoughtInGame := 0
  wardsPlaced := 0
  wardsKilled := 0
  goldEarned := 0
  totalDamageDealtToChampions := 0
  totalDamageTaken := 0
  teamPosition := ""
  teamId := 0
  doubleKills := 0
  tripleKills := 0
  quadraKills := 0
  pentaKills := 0
  turretKills := 0
  inhibitorKills := 0
  dragonKills := 0
  baronKills := 0
  firstBloodKill := false
  firstBloodAssist := false
  firstTowerKill := false
  firstTowerAssist := false
  objectivesStolen := 0
  objectivesStolenAssists := 0
  damageDealtToObjectives := 0
  damageDealtToTurrets := 0
  damageDealtToBuildings := 0
  timeCCingOthers := 0
  totalHealsOnTeammates := 0
  totalDamageShieldedOnTeammates := 0
  longestTimeSpentLiving := 0
  soloKills := 0
  largestKillingSpree := 0

/-! ### The EdgeScore ranking (`rankPlayersInMatch`) -/

/-- The 9-field category breakdown stored per participant. -/
structure Breakdown where
  combat : ℚ
  damage : ℚ
  objectives : ℚ
  economy : ℚ
  vision : ℚ
  utility : ℚ
  clutch : ℚ
  impact : ℚ
  winContribution : ℚ
  deriving DecidableEq, Repr

/-- The value stored in the map returned by the ranker. -/
structure PlayerScore where
  rank : ℕ
  score : ℚ
  breakdown : Breakdown
  deriving DecidableEq, Repr

/-- Intermediate per-participant record produced before sorting. -/
structure ScoredEntry where
  puuid : String
  score : ℚ
  breakdown : Breakdown
  deriving DecidableEq, Repr

/-- Per-category role weights. -/
structure RoleWeight where
  combat : ℚ
  damage : ℚ
  objectives : ℚ
  economy : ℚ
  vision : ℚ
  utility : ℚ
  clutch : ℚ
  impact : ℚ
  winContribution : ℚ
  deriving DecidableEq, Repr

/-- The `roleWeights` lookup table; an unknown position falls back to the
DEFAULT row, as `roleWeights[p.teamPosition] || roleWeights.DEFAULT` does. -/
def roleWeights (pos : String) : RoleWeight :=
  if pos = "TOP" then ⟨1.15, 1.00, 1.10, 1.00, 0.85, 1.15, 0.95, 1.00, 1.00⟩
  else if pos = "JUNGLE" then ⟨1.00, 0.90, 1.20, 0.85, 1.10, 0.95, 1.15, 1.00, 1.00⟩
  else if pos = "MIDDLE" then ⟨1.10, 1.15, 0.95, 1.00, 0.85, 0.85, 1.10, 1.00, 1.00⟩
  else if pos = "BOTTOM" then ⟨1.00, 1.10, 0.95, 1.05, 0.85, 0.85, 0.95, 1.00, 1.00⟩
  else if pos = "UTILITY" then ⟨0.95, 0.80, 0.90, 0.85, 1.15, 1.15, 1.05, 1.00, 1.00⟩
  else ⟨1.00, 1.00, 1.00, 1.00, 1.00, 1.00, 1.00, 1.00, 1.00⟩

/-- `roleMax`: the sum over categories of `categoryMax[k] * w[k]`, with
`categoryMax = {combat 25, damage 18, objectives 20, economy 10, vision 8,
utility 12, clutch 12, impact 10, winContribution 10}`. -/
def roleMax (w : RoleWeight) : ℚ :=
  25 * w.combat + 18 * w.damage + 20 * w.objectives + 10 * w.economy +
  8 * w.vision + 12 * w.utility + 12 * w.clutch + 10 * w.impact + 10 * w.winContribution

/-- Sum of a numeric field over the participant list (`reduce((s,p) => s + f p, 0)`). -/
def sumQ (ps : List MatchParticipant) (f : MatchParticipant → ℚ) : ℚ := (ps.map f).sum

/-- `Math.max(Σ kills, 1)` over all 10 participants. -/
def totalKills (ps : List MatchParticipant) : ℚ := max (sumQ ps fun p => (p.kills : ℚ)) 1

def totalDmg (ps : List MatchParticipant) : ℚ :=
  max (sumQ ps fun p => (p.totalDamageDealtToChampions : ℚ)) 1

def totalGold (ps : List MatchParticipant) : ℚ := max (sumQ ps fun p => (p.goldEarned : ℚ)) 1

def totalVision (ps : List MatchParticipant) : ℚ := max (sumQ ps fun p => (p.visionScore : ℚ)) 1

def totalDmgTaken (ps : List MatchParticipant) : ℚ :=
  max (sumQ ps fun p => (p.totalDamageTaken : ℚ)) 1

def totalObjDmg (ps : List MatchParticipant) : ℚ :=
  max (sumQ ps fun p => (p.damageDealtToObjectives : ℚ)) 1

def totalCC (ps : List MatchParticipant) : ℚ := max (sumQ ps fun p => (p.timeCCingOthers : ℚ)) 1

def totalHealing (ps : List MatchParticipant) : ℚ :=
  max (sumQ ps fun p => (p.totalHealsOnTeammates : ℚ) + (p.totalDamageShieldedOnTeammates : ℚ)) 1

/-- Kills summed over `p`'s team (the `teamKills` record built by `forEach`). -/
def teamKillsSum (ps : List MatchParticipant) (tid : ℕ) : ℚ :=
  sumQ (ps.filter fun q => q.teamId == tid) fun p => (p.kills : ℚ)

def teamGoldSum (ps : List MatchParticipant) (tid : ℕ) : ℚ :=
  sumQ (ps.filter fun q => q.teamId == tid) fun p => (p.goldEarned : ℚ)

def teamDmgSum (ps : List MatchParticipant) (tid : ℕ) : ℚ :=
  sumQ (ps.filter fun q => q.teamId == tid) fun p => (p.totalDamageDealtToChampions : ℚ)

/-- `Math.max(teamKills[p.teamId] || 1, 1)`: a zero (or absent) team sum
becomes 1 through `|| 1`, which `max (…) 1` reproduces. -/
def myTeamKills (ps : List MatchParticipant) (p : MatchParticipant) : ℚ :=
  max (teamKillsSum ps p.teamId) 1

def myTeamGold (ps : List MatchParticipant) (p : MatchParticipant) : ℚ :=
  max (teamGoldSum ps p.teamId) 1

def myTeamDmg (ps : List MatchParticipant) (p : MatchParticipant) : ℚ :=
  max (teamDmgSum ps p.teamId) 1

/-- Category 1, COMBAT: KDA, kill participation, multi-kills, solo kills,
sprees, minus the death-rate penalty, floored at 0. -/
def combatScore (ps : List MatchParticipant) (gameDuration : ℚ) (p : MatchParticipant) : ℚ :=
  let minutes := gameDuration / 60
  let kda : ℚ := if p.deaths = 0 then ((p.kills + p.assists : ℕ) : ℚ) * 1.5
                 else ((p.kills + p.assists : ℕ) : ℚ) / (p.deaths : ℚ)
  let killParticipation := ((p.kills + p.assists : ℕ) : ℚ) / myTeamKills ps p
  let kdaPts := min (kda / 5) 1 * 12
  let kpPts := min killParticipation 1 * 6
  let multiKillPts := min ((p.doubleKills : ℚ) * 0.5 + (p.tripleKills : ℚ) * 1.5 +
    (p.quadraKills : ℚ) * 3 + (p.pentaKills : ℚ) * 7) 7
  let soloPts := min ((p.soloKills : ℚ) * 1.2) 4
  let spreePts := min ((p.largestKillingSpree : ℚ) * 0.3) 3
  let deathPenalty := min (((p.deaths : ℚ) / minutes) * 2.5) 7
  max (kdaPts + kpPts + multiKillPts + soloPts + spreePts - deathPenalty) 0

/-- Category 2, DAMAGE: share of match damage, damage per minute, share of
team damage. -/
def damageScore (ps : List MatchParticipant) (gameDuration : ℚ) (p : MatchParticipant) : ℚ :=
  let minutes := gameDuration / 60
  let dmgSharePts := min ((p.totalDamageDealtToChampions : ℚ) / totalDmg ps / 0.15) 1 * 10
  let dpmPts := min ((p.totalDamageDealtToChampions : ℚ) / minutes / 700) 1 * 5
  let teamDmgSharePts := min ((p.totalDamageDealtToChampions : ℚ) / myTeamDmg ps p / 0.25) 1 * 3
  dmgSharePts + dpmPts + teamDmgSharePts

/-- Category 3, OBJECTIVES: turrets, inhibitors, dragons, barons, objective
damage share, steals. -/
def objectivesScore (ps : List MatchParticipant) (p : MatchParticipant) : ℚ :=
  let turretPts := min ((p.turretKills : ℚ) * 1.5) 4
  let inhibPts := min ((p.inhibitorKills : ℚ) * 2) 3
  let dragonPts := min ((p.dragonKills : ℚ) * 1.5) 3
  let baronPts := min ((p.baronKills : ℚ) * 2.5) 3
  let objDmgShare := (p.damageDealtToObjectives : ℚ) / totalObjDmg ps
  let objDmgPts := min (objDmgShare / 0.15) 1 * 4
  let stealPts := ((p.objectivesStolen : ℚ) + (p.objectivesStolenAssists : ℚ) * 0.5) * 3
  let stealCapped := min stealPts 5
  turretPts + inhibPts + dragonPts + baronPts + objDmgPts + stealCapped

/-- Category 4, ECONOMY: gold share, CS per minute, share of team gold. -/
def economyScore (ps : List MatchParticipant) (gameDuration : ℚ) (p : MatchParticipant) : ℚ :=
  let minutes := gameDuration / 60
  let goldSharePts := min ((p.goldEarned : ℚ) / totalGold ps / 0.12) 1 * 5
  let csPerMin := ((p.totalMinionsKilled + p.neutralMinionsKilled : ℕ) : ℚ) / minutes
  let csPts := min (csPerMin / 8) 1 * 3
  let goldEfficiency := if 0 < myTeamGold ps p then (p.goldEarned : ℚ) / myTeamGold ps p else 0
  let goldEffPts := min (goldEfficiency / 0.25) 1 * 2
  goldSharePts + csPts + goldEffPts

/-- Category 5, VISION: vision-score share, wards per minute, control wards. -/
def visionCatScore (ps : List MatchParticipant) (gameDuration : ℚ) (p : MatchParticipant) : ℚ :=
  let minutes := gameDuration / 60
  let visionSharePts := min ((p.visionScore : ℚ) / totalVision ps / 0.13) 1 * 4
  let wardsPerMinPts := min (((p.wardsPlaced + p.wardsKilled : ℕ) : ℚ) / minutes / 1.5) 1 * 2
  let controlWardPts := min ((p.visionWardsBoughtInGame : ℚ) * 0.5) 2
  visionSharePts + wardsPerMinPts + controlWardPts

/-- Category 6, UTILITY: crowd-control share, heal/shield share, damage-taken
share. -/
def utilityScore (ps : List MatchParticipant) (p : MatchParticipant) : ℚ :=
  let ccPts := min ((p.timeCCingOthers : ℚ) / totalCC ps / 0.15) 1 * 4
  let healShieldPts := min (((p.totalHealsOnTeammates : ℚ) + (p.totalDamageShieldedOnTeammates : ℚ))
    / totalHealing ps / 0.15) 1 * 4
  let tankPts := min ((p.totalDamageTaken : ℚ) / totalDmgTaken ps / 0.15) 1 * 4
  ccPts + healShieldPts + tankPts

/-- Category 7, CLUTCH: first blood/tower, turret-or-building damage (the
`a || b || 0` chain picks `damageDealtToTurrets` when nonzero, else
`damageDealtToBuildings`), survival, champion level; the sum is capped at 12. -/
def clutchScore (gameDuration : ℚ) (p : MatchParticipant) : ℚ :=
  let minutes := gameDuration / 60
  let firstBloodPts := (if p.firstBloodKill then (2:ℚ) else 0) +
    (if p.firstBloodAssist then (1:ℚ) else 0)
  let firstTowerPts := (if p.firstTowerKill then (2:ℚ) else 0) +
    (if p.firstTowerAssist then (1:ℚ) else 0)
  let towerDmgBase : ℕ :=
    if p.damageDealtToTurrets ≠ 0 then p.damageDealtToTurrets else p.damageDealtToBuildings
  let towerDmgPts := min ((towerDmgBase : ℚ) / minutes / 200) 1 * 3
  let survivalPts := min ((p.longestTimeSpentLiving : ℚ) / (gameDuration * 0.4)) 1 * 2
  let levelAdvPts := min ((p.champLevel : ℚ) / 18) 1 * 2
  min (firstBloodPts + firstTowerPts + towerDmgPts + survivalPts + levelAdvPts) 12

/-- Category 8, WIN CONTRIBUTION: carry index times the win multiplier,
scaled by 15 and capped at 10. -/
def winContributionScore (ps : List MatchParticipant) (p : MatchParticipant) : ℚ :=
  let teamKillShare := ((p.kills + p.assists : ℕ) : ℚ) / (myTeamKills ps p + 1)
  let teamGoldShare := (p.goldEarned : ℚ) / myTeamGold ps p
  let teamDmgPct := (p.totalDamageDealtToChampions : ℚ) / myTeamDmg ps p
  let carryIndex := teamKillShare * 0.35 + teamDmgPct * 0.35 + teamGoldShare * 0.3
  let winMultiplier : ℚ := if p.win then 1.5 else 0.7
  min (carryIndex * winMultiplier * 15) 10

/-- The 9 category scores of one participant (category 9, `impact`, is the
standalone Impact Score). -/
def breakdownOf (ps : List MatchParticipant) (gameDuration : ℚ) (p : MatchParticipant) :
    Breakdown where
  combat := combatScore ps gameDuration p
  damage := damageScore ps gameDuration p
  objectives := objectivesScore ps p
  economy := economyScore ps gameDuration p
  vision := visionCatScore ps gameDuration p
  utility := utilityScore ps p
  clutch := clutchScore gameDuration p
  impact := calculateMatchImpact p gameDuration
  winContribution := winContributionScore ps p

/-- `rawWeighted`: the role-weighted sum of the 9 category scores. -/
def weightedTotal (w : RoleWeight) (b : Breakdown) : ℚ :=
  b.combat * w.combat + b.damage * w.damage + b.objectives * w.objectives +
  b.economy * w.economy + b.vision * w.vision + b.utility * w.utility +
  b.clutch * w.clutch + b.impact * w.impact + b.winContribution * w.winContribution

/-- One element of the `scored` array: puuid, normalized score
`Math.min(rawWeighted / roleMax * 100, 100)`, and the breakdown. -/
def scoreEntry (ps : List MatchParticipant) (gameDuration : ℚ) (p : MatchParticipant) :
    ScoredEntry :=
  let w := roleWeights p.teamPosition
  let b := breakdownOf ps gameDuration p
  ⟨p.puuid, min (weightedTotal w b / roleMax w * 100) 100, b⟩

/-- The JS sort comparator `(a, b) => b.score - a.score` as a relation:
`a` may come before `b` iff `b.score ≤ a.score`. -/
def scoreGE (a b : ScoredEntry) : Prop := b.score ≤ a.score

instance : DecidableRel scoreGE := fun a b => inferInstanceAs (Decidable (b.score ≤ a.score))

instance : IsTotal ScoredEntry scoreGE := ⟨fun a b => le_total b.score a.score⟩

instance : IsTrans ScoredEntry scoreGE := ⟨fun _ _ _ hab hbc => le_trans hbc hab⟩

instance : IsRefl ScoredEntry scoreGE := ⟨fun a => le_refl a.score⟩

/-- `scored.forEach((s, i) => result.set(s.puuid, {rank: i + 1, …}))`:
the entries produced from the sorted array, index `i` onwards. -/
def rankFrom (i : ℕ) : List ScoredEntry → List (String × PlayerScore)
  | [] => []
  | s :: rest => (s.puuid, ⟨i + 1, s.score, s.breakdown⟩) :: rankFrom (i + 1) rest

/-- JS `Map.set`: update an existing key in place, else append. -/
def mapSet (m : List (String × PlayerScore)) (k : String) (v : PlayerScore) :
    List (String × PlayerScore) :=
  if m.any fun e => e.1 == k then m.map fun e => if e.1 == k then (k, v) else e
  else m ++ [(k, v)]

/-- Insertion-ordered construction of the result `Map`. -/
def buildMap (entries : List (String × PlayerScore)) : List (String × PlayerScore) :=
  entries.foldl (fun m e => mapSet m e.1 e.2) []

/-- `rankPlayersInMatch`: score every participant, sort descending by
normalized score (stable), and assign ranks 1.. in sorted order. Returns the
empty map when `minutes ≤ 0`. The `teams` argument of the source is unused by
the scoring code and omitted here. -/
def rankPlayersInMatch (participants : List MatchParticipant) (gameDuration : ℚ) :
    List (String × PlayerScore) :=
  if gameDuration / 60 ≤ 0 then [] else
  buildMap (rankFrom 0
    (List.insertionSort scoreGE (participants.map (scoreEntry participants gameDuration))))

/-! ### Structural lemmas about the ranking pipeline -/

/-- Participants used by concrete witness inputs: all-zero stats with a
given puuid, role and team, flagged as a win. -/
def pW (id : String) (pos : String) : MatchParticipant :=
  { baseP with
    puuid := id
    teamPosition := pos
    win := true
    teamId := 100 }

/-- Ten participants with pairwise-distinct puuids for witness inputs. -/
def tenPs : List MatchParticipant :=
  [pW "p1" "TOP", pW "p2" "", pW "p3" "", pW "p4" "", pW "p5" "",
   pW "p6" "", pW "p7" "", pW "p8" "", pW "p9" "", pW "p10" ""]

/-! ### Bounds on the category scores and normalized EdgeScore -/

/-- All nine category scores are non-negative. -/
def Breakdown.Nonneg (b : Breakdown) : Prop :=
  0 ≤ b.combat ∧ 0 ≤ b.damage ∧ 0 ≤ b.objectives ∧ 0 ≤ b.economy ∧ 0 ≤ b.vision ∧
  0 ≤ b.utility ∧ 0 ≤ b.clutch ∧ 0 ≤ b.impact ∧ 0 ≤ b.winContribution

/-- All nine role weights are positive. -/
def RoleWeight.Positive (w : RoleWeight) : Prop :=
  0 < w.combat ∧ 0 < w.damage ∧ 0 < w.objectives ∧ 0 < w.economy ∧ 0 < w.vision ∧
  0 < w.utility ∧ 0 < w.clutch ∧ 0 < w.impact ∧ 0 < w.winContribution

/-! ### Tied participants (claim C9) -/

/-- The numeric counters and win flags of a participant, bundled. -/
structure RawStats where
  champLevel : ℕ
  kills : ℕ
  deaths : ℕ
  assists : ℕ
  win : Bool
  totalMinionsKilled : ℕ
  neutralMinionsKilled : ℕ
  visionScore : ℕ
  visionWardsBoughtInGame : ℕ
  wardsPlaced : ℕ
  wardsKilled : ℕ
  goldEarned : ℕ
  totalDamageDealtToChampions : ℕ
  totalDamageTaken : ℕ
  doubleKills : ℕ
  tripleKills : ℕ
  quadraKills : ℕ
  pentaKills : ℕ
  turretKills : ℕ
  inhibitorKills : ℕ
  dragonKills : ℕ
  baronKills : ℕ
  firstBloodKill : Bool
  firstBloodAssist : Bool
  firstTowerKill : Bool
  firstTowerAssist : Bool
  objectivesStolen : ℕ
  objectivesStolenAssists : ℕ
  damageDealtToObjectives : ℕ
  damageDealtToTurrets : ℕ
  damageDealtToBuildings : ℕ
  timeCCingOthers : ℕ
  totalHealsOnTeammates : ℕ
  totalDamageShieldedOnTeammates : ℕ
  longestTimeSpentLiving : ℕ
  soloKills : ℕ
  largestKillingSpree : ℕ
  deriving DecidableEq, Repr

/-- The numeric counters and win flags of a participant — everything the
scoring formulas read except the identity fields (puuid, champion name),
the role label and the team id. -/
def rawStats (p : MatchParticipant) : RawStats :=
  ⟨p.champLevel, p.kills, p.deaths, p.assists, p.win, p.totalMinionsKilled,
   p.neutralMinionsKilled, p.visionScore, p.visionWardsBoughtInGame, p.wardsPlaced,
   p.wardsKilled, p.goldEarned, p.totalDamageDealtToChampions, p.totalDamageTaken,
   p.doubleKills, p.tripleKills, p.quadraKills, p.pentaKills, p.turretKills,
   p.inhibitorKills, p.dragonKills, p.baronKills, p.firstBloodKill, p.firstBloodAssist,
   p.firstTowerKill, p.firstTowerAssist, p.objectivesStolen, p.objectivesStolenAssists,
   p.damageDealtToObjectives, p.damageDealtToTurrets, p.damageDealtToBuildings,
   p.timeCCingOthers, p.totalHealsOnTeammates, p.totalDamageShieldedOnTeammates,
   p.longestTimeSpentLiving, p.soloKills, p.largestKillingSpree⟩

/-- Replace only the player id of a participant record. -/
def withPuuid (q : MatchParticipant) (id : String) : MatchParticipant :=
  { q with puuid := id }

/-- Ten participants identical except for the player id. -/
def tenSame : List MatchParticipant :=
  [pW "p1" "", pW "p2" "", pW "p3" "", pW "p4" "", pW "p5" "",
   pW "p6" "", pW "p7" "", pW "p8" "", pW "p9" "", pW "p10" ""]

/-! ### Windowed aggregation (`recentAnalysis`, `seasonAnalysis`) -/

/-- The part of a match record the aggregation reads. -/
structure MatchData where
  gameDuration : ℚ
  participants : List MatchParticipant
  deriving DecidableEq, Repr

/-- `Math.round` on the non-negative values produced here: round half up. -/
def jsRound (q : ℚ) : ℤ := ⌊q + 1 / 2⌋

structure LaneStats where
  games : ℕ
  wins : ℕ
  deriving DecidableEq, Repr

structure KDAAvg where
  kills : ℚ
  deaths : ℚ
  assists : ℚ
  deriving DecidableEq, Repr

structure ChampionStats where
  name : String
  games : ℕ
  wins : ℕ
  kills : ℕ
  deaths : ℕ
  assists : ℕ
  totalImpact : ℚ
  deriving DecidableEq, Repr

structure RecentAnalysis where
  impactScores : List ℚ
  avgImpact : ℚ
  winrate : ℤ
  wins : ℕ
  losses : ℕ
  lanes : List (String × LaneStats)
  avgKDA : KDAAvg
  recentTrend : ℚ
  deriving DecidableEq, Repr

structure SeasonAnalysis where
  impactScores : List ℚ
  avgImpact : ℚ
  winrate : ℤ
  wins : ℕ
  losses : ℕ
  lanes : List (String × LaneStats)
  champions : List (String × ChampionStats)
  avgKDA : KDAAvg
  totalGames : ℕ
  deriving DecidableEq, Repr

/-- `normalizePosition`: map the position label to a lane name, anything
unknown (including the empty label) to "Unknown". -/
def normalizePosition (pos : String) : String :=
  if pos = "TOP" then "Top"
  else if pos = "JUNGLE" then "Jng"
  else if pos = "MIDDLE" then "Mid"
  else if pos = "BOTTOM" then "Adc"
  else if pos = "UTILITY" then "Sup"
  else "Unknown"

/-- The `lanes[lane]` record update: create the entry on first use, then
increment games and (on a win) wins, preserving insertion order. -/
def bumpLane (lanes : List (String × LaneStats)) (lane : String) (win : Bool) :
    List (String × LaneStats) :=
  if lanes.any fun e => e.1 == lane then
    lanes.map fun e =>
      if e.1 == lane then (lane, ⟨e.2.games + 1, e.2.wins + (if win then 1 else 0)⟩) else e
  else lanes ++ [(lane, ⟨1, if win then 1 else 0⟩)]

/-- The `champions[champ]` record update (season window only). -/
def bumpChamp (champs : List (String × ChampionStats)) (name : String) (win : Bool)
    (k dth a : ℕ) (impact : ℚ) : List (String × ChampionStats) :=
  if champs.any fun e => e.1 == name then
    champs.map fun e =>
      if e.1 == name then
        (name, ⟨e.2.name, e.2.games + 1, e.2.wins + (if win then 1 else 0), e.2.kills + k,
          e.2.deaths + dth, e.2.assists + a, e.2.totalImpact + impact⟩)
      else e
  else champs ++ [(name, ⟨name, 1, (if win then 1 else 0), k, dth, a, impact⟩)]

/-- Accumulator of the recent-window loop. -/
structure RecentState where
  impactScores : List ℚ
  lanes : List (String × LaneStats)
  totalKills : ℕ
  totalDeaths : ℕ
  totalAssists : ℕ
  wins : ℕ
  losses : ℕ
  deriving DecidableEq, Repr

def recentInit : RecentState := ⟨[], [], 0, 0, 0, 0, 0⟩

/-- One iteration of the recent-window loop: find the target player's
snapshot, `continue` (identity) when absent, otherwise accumulate. -/
def recentStep (pid : String) (st : RecentState) (m : MatchData) : RecentState :=
  match m.participants.find? fun p => p.puuid == pid with
  | none => st
  | some part =>
    let impact := calculateMatchImpact part m.gameDuration
    let lane := normalizePosition part.teamPosition
    { impactScores := st.impactScores ++ [impact]
      lanes := if lane ≠ "Unknown" then bumpLane st.lanes lane part.win else st.lanes
      totalKills := st.totalKills + part.kills
      totalDeaths := st.totalDeaths + part.deaths
      totalAssists := st.totalAssists + part.assists
      wins := st.wins + (if part.win then 1 else 0)
      losses := st.losses + (if part.win then 0 else 1) }

/-- The record returned for an empty recent window. -/
def emptyRecent : RecentAnalysis := ⟨[], 0, 0, 0, 0, [], ⟨0, 0, 0⟩, 0⟩

/-- The tail of the recent-window computation after the loop. -/
def recentFinalize (st : RecentState) : RecentAnalysis :=
  let totalGames := st.wins + st.losses
  let avgImpact : ℚ :=
    if 0 < st.impactScores.length then st.impactScores.sum / st.impactScores.length else 0
  let recent5 := st.impactScores.take 5
  let prev5 := (st.impactScores.drop 5).take 5
  let recentAvg : ℚ := if 0 < recent5.length then recent5.sum / recent5.length else 0
  let prevAvg : ℚ := if 0 < prev5.length then prev5.sum / prev5.length else avgImpact
  { impactScores := st.impactScores
    avgImpact := avgImpact
    winrate := if 0 < totalGames then jsRound ((st.wins : ℚ) / totalGames * 100) else 0
    wins := st.wins
    losses := st.losses
    lanes := st.lanes
    avgKDA := ⟨if 0 < totalGames then (st.totalKills : ℚ) / totalGames else 0,
               if 0 < totalGames then (st.totalDeaths : ℚ) / totalGames else 0,
               if 0 < totalGames then (st.totalAssists : ℚ) / totalGames else 0⟩
    recentTrend := recentAvg - prevAvg }

/-- The recent-window aggregation over the (already windowed) match list,
most recent first. -/
def recentAnalysis (ms : List MatchData) (pid : String) : RecentAnalysis :=
  if ms.isEmpty then emptyRecent
  else recentFinalize (ms.foldl (recentStep pid) recentInit)

/-- Accumulator of the season loop. -/
structure SeasonState where
  impactScores : List ℚ
  lanes : List (String × LaneStats)
  champions : List (String × ChampionStats)
  totalKills : ℕ
  totalDeaths : ℕ
  totalAssists : ℕ
  wins : ℕ
  losses : ℕ
  deriving DecidableEq, Repr

def seasonInit : SeasonState := ⟨[], [], [], 0, 0, 0, 0, 0⟩

/-- One iteration of the season loop. -/
def seasonStep (pid : String) (st : SeasonState) (m : MatchData) : SeasonState :=
  match m.participants.find? fun p => p.puuid == pid with
  | none => st
  | some part =>
    let impact := calculateMatchImpact part m.gameDuration
    let lane := normalizePosition part.teamPosition
    { impactScores := st.impactScores ++ [impact]
      lanes := if lane ≠ "Unknown" then bumpLane st.lanes lane part.win else st.lanes
      champions := bumpChamp st.champions part.championName part.win part.kills part.deaths
        part.assists impact
      totalKills := st.totalKills + part.kills
      totalDeaths := st.totalDeaths + part.deaths
      totalAssists := st.totalAssists + part.assists
      wins := st.wins + (if part.win then 1 else 0)
      losses := st.losses + (if part.win then 0 else 1) }

/-- The record returned for an empty season window. -/
def emptySeason : SeasonAnalysis := ⟨[], 0, 0, 0, 0, [], [], ⟨0, 0, 0⟩, 0⟩

/-- The tail of the season computation after the loop. -/
def seasonFinalize (st : SeasonState) : SeasonAnalysis :=
  let totalGames := st.wins + st.losses
  let avgImpact : ℚ :=
    if 0 < st.impactScores.length then st.impactScores.sum / st.impactScores.length else 0
  { impactScores := st.impactScores
    avgImpact := avgImpact
    winrate := if 0 < totalGames then jsRound ((st.wins : ℚ) / totalGames * 100) else 0
    wins := st.wins
    losses := st.losses
    lanes := st.lanes
    champions := st.champions
    avgKDA := ⟨if 0 < totalGames then (st.totalKills : ℚ) / totalGames else 0,
               if 0 < totalGames then (st.totalDeaths : ℚ) / totalGames else 0,
               if 0 < totalGames then (st.totalAssists : ℚ) / totalGames else 0⟩
    totalGames := totalGames }

/-- The season aggregation over the full match list, most recent first. -/
def seasonAnalysis (ms : List MatchData) (pid : String) : SeasonAnalysis :=
  if ms.isEmpty then emptySeason
  else seasonFinalize (ms.foldl (seasonStep pid) seasonInit)

/-- A match contains a snapshot of the target player. -/
def hasTarget (pid : String) (m : MatchData) : Bool :=
  m.participants.any fun p => p.puuid == pid

/-! ### The trend computation (claim C4) -/

/-- Average of a list of rationals (`sum / length`). -/
def listAvg (l : List ℚ) : ℚ := l.sum / l.length

/-- A winning target-player snapshot with the chosen counters (kills, CS,
champion damage, gold, vision score, objective damage, inhibitor kills). -/
def scP (k cs dmg gold vs objD inh : ℕ) : MatchParticipant :=
  { baseP with
    puuid := "me"
    win := true
    kills := k
    totalMinionsKilled := cs
    totalDamageDealtToChampions := dmg
    goldEarned := gold
    visionScore := vs
    damageDealtToObjectives := objD
    inhibitorKills := inh }

/-- A losing all-zero target-player snapshot. -/
def meLoss : MatchParticipant := { baseP with puuid := "me" }

/-- A 60-second match with a single participant. -/
def mkM (p : MatchParticipant) : MatchData := ⟨60, [p]⟩

/-- Six matches whose impact scores come out as [1, 1, 1, 1, 1, 0]. -/
def cex6 : List MatchData :=
  [mkM (scP 0 0 0 0 0 0 0), mkM (scP 0 0 0 0 0 0 0), mkM (scP 0 0 0 0 0 0 0),
   mkM (scP 0 0 0 0 0 0 0), mkM (scP 0 0 0 0 0 0 0), mkM meLoss]

/-- The 7-match window of the §8 scenario: impact scores [8,7,9,6,5,4,3]. -/
def scenario7 : List MatchData :=
  [mkM (scP 8 7 800 450 3 300 0), mkM (scP 8 7 800 0 3 300 0),
   mkM (scP 8 7 800 450 3 600 1), mkM (scP 8 7 800 0 0 300 0),
   mkM (scP 8 0 800 0 0 300 0), mkM (scP 8 0 0 0 0 300 0),
   mkM (scP 6 0 0 0 0 0 0)]

/-! ### Stability classification (claim C7) -/

/-- Population variance of the window's impact scores around the given
average (the reduce-and-divide of `getStability`). -/
def varOf (impactScores : List ℚ) (avgImpact : ℚ) : ℚ :=
  (impactScores.map fun s => (s - avgImpact) ^ 2).sum / impactScores.length

/-- `getStability` from the source. The source classifies by
`stdDev = Math.sqrt(variance)` with thresholds `stdDev < 1` and
`stdDev < 2`; since the variance is the square of the standard deviation
and `Real.sqrt v < c ↔ v < c ^ 2` for positive `c`, the embedding compares
the variance against 1 and 4, which keeps the definition computable. The
claim theorem below restates the classification through `Real.sqrt`. -/
def getStability (impactScores : List ℚ) (avgImpact : ℚ) : String :=
  if impactScores.length < 5 then "Mało danych"
  else if varOf impactScores avgImpact < 1 then "Wysoka"
  else if varOf impactScores avgImpact < 4 then "Średnia"
  else "Niska"

/-! ### Best-champion feedback rule (claim C8) -/

/-- Win rate of a champion entry (`c.wins / c.games`). -/
def champWr (c : ChampionStats) : ℚ := (c.wins : ℚ) / (c.games : ℚ)

/-- The comparator `(a, b) => (b.wins/b.games) - (a.wins/a.games)` as a
relation: `a` may come before `b` iff `b`'s win rate is ≤ `a`'s. -/
def wrGE (a b : ChampionStats) : Prop := champWr b ≤ champWr a

instance : DecidableRel wrGE := fun a b => inferInstanceAs (Decidable (champWr b ≤ champWr a))

instance : IsTotal ChampionStats wrGE := ⟨fun a b => le_total (champWr b) (champWr a)⟩

instance : IsTrans ChampionStats wrGE := ⟨fun _ _ _ hab hbc => le_trans hbc hab⟩

/-- The value produced by the `bestChamp` memo. -/
structure BestChamp where
  name : String
  winrate : ℤ
  games : ℕ
  deriving DecidableEq, Repr

/-- `bestChamp`: among champions with at least 3 games, sort descending by
win rate (stable) and take the first; `none` when no champion qualifies. -/
def bestChamp (champs : List ChampionStats) : Option BestChamp :=
  let champList := champs.filter fun c => 3 ≤ c.games
  if champList.isEmpty then none
  else
    match List.insertionSort wrGE champList with
    | [] => none
    | best :: _ => some ⟨best.name, jsRound (champWr best * 100), best.games⟩

/-- The best-champion strength rule of the feedback generator: it fires
(returning the referenced champion) iff `bestChamp` exists with win rate
≥ 70 and at least 5 games. -/
def bestChampRule (champs : List ChampionStats) : Option BestChamp :=
  match bestChamp champs with
  | none => none
  | some bc => if 70 ≤ bc.winrate ∧ 5 ≤ bc.games then some bc else none

/-- Champion entries used by the C8 counterexample: A has 3 games, 3 wins
(100%); B has 5 games, 4 wins (80%). -/
def champA : ChampionStats := ⟨"A", 3, 3, 0, 0, 0, 0⟩

def champB : ChampionStats := ⟨"B", 5, 4, 0, 0, 0, 0⟩

/-! ### Lemmas and claim theorems -/

lemma div_sixty_nonpos_iff {d : ℚ} : d / 60 ≤ 0 ↔ d ≤ 0 := by
  rw [div_le_iff₀ (by norm_num : (0:ℚ) < 60), zero_mul]

/-- Claim C1: for every participant and duration the ImpactScorer result
equals the §4.1 clamped-sum formula `impactSpec`, always lies in [0,10],
and is exactly 0 whenever the duration is ≤ 0. -/
theorem calculateMatchImpact_correct (p : MatchParticipant) (d : ℚ) :
    calculateMatchImpact p d = impactSpec p d ∧
    0 ≤ calculateMatchImpact p d ∧ calculateMatchImpact p d ≤ 10 ∧
    (d ≤ 0 → calculateMatchImpact p d = 0) := by
  unfold calculateMatchImpact impactSpec
  by_cases hd : d ≤ 0
  · simp only [div_sixty_nonpos_iff.mpr hd, if_pos hd, if_pos (le_refl (0:ℚ))]
    simp [hd]
  · have hd60 : ¬ (d / 60 ≤ 0) := fun h => hd (div_sixty_nonpos_iff.mp h)
    simp only [if_neg hd, if_neg hd60]
    refine ⟨trivial, ?_, ?_, fun h => absurd h hd⟩
    · exact le_min (le_max_right _ _) (by norm_num)
    · exact min_le_right _ _

/-- Witness for C1 at a concrete input: duration 0 gives result 0 and
agrees with the spec formula. -/
theorem calculateMatchImpact_correct_witness :
    calculateMatchImpact baseP 0 = impactSpec baseP 0 ∧
    calculateMatchImpact baseP 0 = 0 :=
  ⟨(calculateMatchImpact_correct baseP 0).1,
   (calculateMatchImpact_correct baseP 0).2.2.2 (by norm_num)⟩

lemma scoreEntry_puuid (ps : List MatchParticipant) (d : ℚ) (p : MatchParticipant) :
    (scoreEntry ps d p).puuid = p.puuid := rfl

lemma scoreEntry_breakdown (ps : List MatchParticipant) (d : ℚ) (p : MatchParticipant) :
    (scoreEntry ps d p).breakdown = breakdownOf ps d p := rfl

lemma scoreEntry_score (ps : List MatchParticipant) (d : ℚ) (p : MatchParticipant) :
    (scoreEntry ps d p).score =
      min (weightedTotal (roleWeights p.teamPosition) (breakdownOf ps d p) /
        roleMax (roleWeights p.teamPosition) * 100) 100 := rfl

lemma rankFrom_length (i : ℕ) (l : List ScoredEntry) : (rankFrom i l).length = l.length := by
  induction l generalizing i with
  | nil => rfl
  | cons s rest ih => simp [rankFrom, ih]

lemma rankFrom_map_fst (i : ℕ) (l : List ScoredEntry) :
    (rankFrom i l).map Prod.fst = l.map ScoredEntry.puuid := by
  induction l generalizing i with
  | nil => rfl
  | cons s rest ih => simp [rankFrom, ih]

lemma rankFrom_map_rank (i : ℕ) (l : List ScoredEntry) :
    (rankFrom i l).map (fun e => e.2.rank) = List.range' (i + 1) l.length := by
  induction l generalizing i with
  | nil => rfl
  | cons s rest ih => simp [rankFrom, ih, List.range']

lemma rankFrom_get (i : ℕ) (l : List ScoredEntry) (j : ℕ) (h1 : j < (rankFrom i l).length)
    (h2 : j < l.length) :
    (rankFrom i l).get ⟨j, h1⟩ =
      ((l.get ⟨j, h2⟩).puuid,
        ⟨i + j + 1, (l.get ⟨j, h2⟩).score, (l.get ⟨j, h2⟩).breakdown⟩) := by
  induction l generalizing i j with
  | nil => exact absurd h2 (Nat.not_lt_zero j)
  | cons s rest ih =>
    cases j with
    | zero => rfl
    | succ j =>
      have h1' : j < (rankFrom (i + 1) rest).length := by
        have := h1; simpa [rankFrom, rankFrom_length] using Nat.lt_of_succ_lt_succ this
      have h2' : j < rest.length := Nat.lt_of_succ_lt_succ h2
      have := ih (i + 1) j h1' h2'
      simpa [rankFrom, Nat.add_assoc, Nat.add_comm 1 j, Nat.add_left_comm 1 j] using this

lemma mem_rankFrom {e : String × PlayerScore} (i : ℕ) (l : List ScoredEntry)
    (he : e ∈ rankFrom i l) :
    ∃ s ∈ l, e.1 = s.puuid ∧ e.2.score = s.score ∧ e.2.breakdown = s.breakdown := by
  induction l generalizing i with
  | nil => simp [rankFrom] at he
  | cons s rest ih =>
    rcases (List.mem_cons).1 he with h | h
    · exact ⟨s, List.mem_cons_self s rest, by simp [h]⟩
    · obtain ⟨t, ht, h⟩ := ih (i + 1) h
      exact ⟨t, List.mem_cons_of_mem s ht, h⟩

lemma mem_rankFrom_of_mem {s : ScoredEntry} (i : ℕ) (l : List ScoredEntry) (hs : s ∈ l) :
    ∃ e ∈ rankFrom i l, e.1 = s.puuid := by
  induction l generalizing i with
  | nil => simp at hs
  | cons t rest ih =>
    rcases (List.mem_cons).1 hs with h | h
    · exact ⟨(t.puuid, ⟨i + 1, t.score, t.breakdown⟩), List.mem_cons_self _ _, by simp [h]⟩
    · obtain ⟨e, he, h⟩ := ih (i + 1) h
      exact ⟨e, List.mem_cons_of_mem _ he, h⟩

lemma mapSet_of_not_mem (m : List (String × PlayerScore)) (k : String) (v : PlayerScore)
    (h : ∀ e ∈ m, e.1 ≠ k) : mapSet m k v = m ++ [(k, v)] := by
  unfold mapSet
  rw [if_neg]
  simp only [List.any_eq_true, beq_iff_eq, not_exists]
  intro e he
  exact h e he.1 he.2

lemma mapSet_mem {x : String × PlayerScore} (m : List (String × PlayerScore)) (k : String)
    (v : PlayerScore) (hx : x ∈ mapSet m k v) : x ∈ m ∨ x = (k, v) := by
  unfold mapSet at hx
  split at hx
  · rw [List.mem_map] at hx
    obtain ⟨e, he, hx⟩ := hx
    by_cases hk : e.1 == k
    · rw [if_pos hk] at hx; exact Or.inr hx.symm
    · rw [if_neg hk] at hx; exact Or.inl (hx ▸ he)
  · rcases (List.mem_append).1 hx with h | h
    · exact Or.inl h
    · exact Or.inr (by simpa using h)

lemma foldl_mapSet_go (entries : List (String × PlayerScore)) (m : List (String × PlayerScore))
    (hnd : (entries.map Prod.fst).Nodup) (hdisj : ∀ e ∈ entries, ∀ x ∈ m, x.1 ≠ e.1) :
    entries.foldl (fun m e => mapSet m e.1 e.2) m = m ++ entries := by
  induction entries generalizing m with
  | nil => simp
  | cons e rest ih =>
    have hset : mapSet m e.1 e.2 = m ++ [(e.1, e.2)] :=
      mapSet_of_not_mem m e.1 e.2 fun x hx => hdisj e (List.mem_cons_self e rest) x hx
    have hnd' : (rest.map Prod.fst).Nodup := (List.nodup_cons.1 hnd).2
    have hkey : e.1 ∉ rest.map Prod.fst := (List.nodup_cons.1 hnd).1
    have hdisj' : ∀ f ∈ rest, ∀ x ∈ m ++ [(e.1, e.2)], x.1 ≠ f.1 := by
      intro f hf x hx
      rcases (List.mem_append).1 hx with h | h
      · exact hdisj f (List.mem_cons_of_mem e hf) x h
      · have hx' : x = (e.1, e.2) := by simpa using h
        subst hx'
        intro hcontra
        exact hkey (hcontra ▸ List.mem_map_of_mem Prod.fst hf)
    calc (e :: rest).foldl (fun m e => mapSet m e.1 e.2) m
        = rest.foldl (fun m e => mapSet m e.1 e.2) (m ++ [(e.1, e.2)]) := by
          simp [List.foldl_cons, hset]
      _ = (m ++ [(e.1, e.2)]) ++ rest := ih (m ++ [(e.1, e.2)]) hnd' hdisj'
      _ = m ++ (e :: rest) := by simp

lemma buildMap_eq_self (entries : List (String × PlayerScore))
    (hnd : (entries.map Prod.fst).Nodup) : buildMap entries = entries := by
  simpa using foldl_mapSet_go entries [] hnd (by simp)

lemma foldl_mapSet_mem {x : String × PlayerScore} (entries m : List (String × PlayerScore))
    (hx : x ∈ entries.foldl (fun m e => mapSet m e.1 e.2) m) : x ∈ m ∨ x ∈ entries := by
  induction entries generalizing m with
  | nil => exact Or.inl (by simpa using hx)
  | cons e rest ih =>
    rw [List.foldl_cons] at hx
    rcases ih (mapSet m e.1 e.2) hx with h | h
    · rcases mapSet_mem m e.1 e.2 h with h' | h'
      · exact Or.inl h'
      · refine Or.inr ?_
        rw [h']
        exact List.mem_cons_self e rest
    · exact Or.inr (List.mem_cons_of_mem e h)

lemma buildMap_mem {x : String × PlayerScore} (entries : List (String × PlayerScore))
    (hx : x ∈ buildMap entries) : x ∈ entries := by
  rcases foldl_mapSet_mem entries [] hx with h | h
  · simp at h
  · exact h

/-- Claim C10: a non-positive game duration makes the ranker return the
empty map, with no participant receiving any rank, score or breakdown. -/
theorem rankPlayersInMatch_nonpos_duration (ps : List MatchParticipant) (d : ℚ)
    (hd : d ≤ 0) : rankPlayersInMatch ps d = [] := by
  unfold rankPlayersInMatch
  rw [if_pos (div_sixty_nonpos_iff.mpr hd)]

/-- Witness for C10: at duration 0 the ranker output is empty. -/
theorem rankPlayersInMatch_nonpos_duration_witness :
    rankPlayersInMatch [baseP] 0 = [] :=
  rankPlayersInMatch_nonpos_duration [baseP] 0 (by norm_num)

lemma rankPlayersInMatch_eq_rankFrom (ps : List MatchParticipant) (d : ℚ)
    (hnodup : (ps.map fun p => p.puuid).Nodup) (hd : 0 < d) :
    rankPlayersInMatch ps d =
      rankFrom 0 (List.insertionSort scoreGE (ps.map (scoreEntry ps d))) := by
  have hguard : ¬ (d / 60 ≤ 0) := fun h => absurd (div_sixty_nonpos_iff.mp h) (not_le.mpr hd)
  have hS : (ps.map (scoreEntry ps d)).map ScoredEntry.puuid = ps.map fun p => p.puuid := by
    rw [List.map_map]
    rfl
  have hperm :
      ((List.insertionSort scoreGE (ps.map (scoreEntry ps d))).map ScoredEntry.puuid).Perm
        ((ps.map (scoreEntry ps d)).map ScoredEntry.puuid) :=
    (List.perm_insertionSort scoreGE (ps.map (scoreEntry ps d))).map ScoredEntry.puuid
  have hkeys :
      ((List.insertionSort scoreGE (ps.map (scoreEntry ps d))).map ScoredEntry.puuid).Nodup :=
    hperm.nodup_iff.mpr (hS ▸ hnodup)
  unfold rankPlayersInMatch
  rw [if_neg hguard]
  exact buildMap_eq_self _ (by rw [rankFrom_map_fst]; exact hkeys)

lemma rankFrom_pairwise (i : ℕ) (l : List ScoredEntry) (hs : List.Sorted scoreGE l) :
    List.Pairwise (fun a b => b.2.score ≤ a.2.score) (rankFrom i l) := by
  induction l generalizing i with
  | nil => exact List.Pairwise.nil
  | cons s rest ih =>
    rw [rankFrom]
    refine List.pairwise_cons.mpr ⟨?_, ih (i + 1) hs.of_cons⟩
    intro y hy
    obtain ⟨t, ht, _, hscore, _⟩ := mem_rankFrom (i + 1) rest hy
    have hrel := List.rel_of_sorted_cons hs t ht
    simpa [hscore] using hrel

/-- Claim C2: for a 10-participant match with pairwise-distinct player ids
and positive duration, the ranks of the returned map are exactly 1..10 in
map order, each used once, and the normalized scores are non-increasing
along the rank order (any better-ranked entry scores at least as much as
any worse-ranked one). -/
theorem rankPlayersInMatch_ranks (ps : List MatchParticipant) (d : ℚ)
    (hlen : ps.length = 10) (hnodup : (ps.map fun p => p.puuid).Nodup) (hd : 0 < d) :
    ((rankPlayersInMatch ps d).map fun e => e.2.rank) = [1, 2, 3, 4, 5, 6, 7, 8, 9, 10] ∧
    List.Pairwise (fun a b => b.2.score ≤ a.2.score) (rankPlayersInMatch ps d) := by
  have hm := rankPlayersInMatch_eq_rankFrom ps d hnodup hd
  have hLlen : (List.insertionSort scoreGE (ps.map (scoreEntry ps d))).length = 10 := by
    rw [List.length_insertionSort, List.length_map, hlen]
  constructor
  · rw [hm, rankFrom_map_rank, hLlen]
    rfl
  · rw [hm]
    exact rankFrom_pairwise 0 _ (List.sorted_insertionSort scoreGE _)

/-- Witness for C2 at a concrete 10-participant match. -/
theorem rankPlayersInMatch_ranks_witness :
    ((rankPlayersInMatch tenPs 60).map fun e => e.2.rank) = [1, 2, 3, 4, 5, 6, 7, 8, 9, 10] :=
  (rankPlayersInMatch_ranks tenPs 60 (by decide)
    (by simp [tenPs, pW, baseP]) (by norm_num)).1

lemma q_max_one_pos (x : ℚ) : 0 < max x 1 := lt_of_lt_of_le one_pos (le_max_right x 1)

lemma totalKills_pos (ps : List MatchParticipant) : 0 < totalKills ps := q_max_one_pos _

lemma totalDmg_pos (ps : List MatchParticipant) : 0 < totalDmg ps := q_max_one_pos _

lemma totalGold_pos (ps : List MatchParticipant) : 0 < totalGold ps := q_max_one_pos _

lemma totalVision_pos (ps : List MatchParticipant) : 0 < totalVision ps := q_max_one_pos _

lemma totalDmgTaken_pos (ps : List MatchParticipant) : 0 < totalDmgTaken ps := q_max_one_pos _

lemma totalObjDmg_pos (ps : List MatchParticipant) : 0 < totalObjDmg ps := q_max_one_pos _

lemma totalCC_pos (ps : List MatchParticipant) : 0 < totalCC ps := q_max_one_pos _

lemma totalHealing_pos (ps : List MatchParticipant) : 0 < totalHealing ps := q_max_one_pos _

lemma myTeamKills_pos (ps : List MatchParticipant) (p : MatchParticipant) :
    0 < myTeamKills ps p := q_max_one_pos _

lemma myTeamGold_pos (ps : List MatchParticipant) (p : MatchParticipant) :
    0 < myTeamGold ps p := q_max_one_pos _

lemma myTeamDmg_pos (ps : List MatchParticipant) (p : MatchParticipant) :
    0 < myTeamDmg ps p := q_max_one_pos _

lemma min_cap_nonneg {x c : ℚ} (hx : 0 ≤ x) (hc : 0 ≤ c) : 0 ≤ min x c := le_min hx hc

lemma minOnePts_nonneg {x k : ℚ} (hx : 0 ≤ x) (hk : 0 ≤ k) : 0 ≤ min x 1 * k :=
  mul_nonneg (le_min hx one_pos.le) hk

lemma combatScore_nonneg (ps : List MatchParticipant) (d : ℚ) (p : MatchParticipant) :
    0 ≤ combatScore ps d p := le_max_right _ _

lemma damageScore_nonneg (ps : List MatchParticipant) (d : ℚ) (p : MatchParticipant)
    (hd : 0 < d) : 0 ≤ damageScore ps d p := by
  have hmin : (0:ℚ) < d / 60 := by positivity
  unfold damageScore
  refine add_nonneg (add_nonneg ?_ ?_) ?_
  · exact minOnePts_nonneg
      (div_nonneg (div_nonneg (Nat.cast_nonneg _) (totalDmg_pos ps).le) (by norm_num))
      (by norm_num)
  · exact minOnePts_nonneg
      (div_nonneg (div_nonneg (Nat.cast_nonneg _) hmin.le) (by norm_num)) (by norm_num)
  · exact minOnePts_nonneg
      (div_nonneg (div_nonneg (Nat.cast_nonneg _) (myTeamDmg_pos ps p).le) (by norm_num))
      (by norm_num)

lemma objectivesScore_nonneg (ps : List MatchParticipant) (p : MatchParticipant) :
    0 ≤ objectivesScore ps p := by
  unfold objectivesScore
  refine add_nonneg (add_nonneg (add_nonneg (add_nonneg (add_nonneg ?_ ?_) ?_) ?_) ?_) ?_
  · exact min_cap_nonneg (by positivity) (by norm_num)
  · exact min_cap_nonneg (by positivity) (by norm_num)
  · exact min_cap_nonneg (by positivity) (by norm_num)
  · exact min_cap_nonneg (by positivity) (by norm_num)
  · exact minOnePts_nonneg
      (div_nonneg (div_nonneg (Nat.cast_nonneg _) (totalObjDmg_pos ps).le) (by norm_num))
      (by norm_num)
  · exact min_cap_nonneg (by positivity) (by norm_num)

lemma economyScore_nonneg (ps : List MatchParticipant) (d : ℚ) (p : MatchParticipant)
    (hd : 0 < d) : 0 ≤ economyScore ps d p := by
  have hmin : (0:ℚ) < d / 60 := by positivity
  unfold economyScore
  refine add_nonneg (add_nonneg ?_ ?_) ?_
  · exact minOnePts_nonneg
      (div_nonneg (div_nonneg (Nat.cast_nonneg _) (totalGold_pos ps).le) (by norm_num))
      (by norm_num)
  · exact minOnePts_nonneg
      (div_nonneg (div_nonneg (Nat.cast_nonneg _) hmin.le) (by norm_num)) (by norm_num)
  · refine minOnePts_nonneg (div_nonneg ?_ (by norm_num)) (by norm_num)
    split
    · exact div_nonneg (Nat.cast_nonneg _) (myTeamGold_pos ps p).le
    · exact le_refl 0

lemma visionCatScore_nonneg (ps : List MatchParticipant) (d : ℚ) (p : MatchParticipant)
    (hd : 0 < d) : 0 ≤ visionCatScore ps d p := by
  have hmin : (0:ℚ) < d / 60 := by positivity
  unfold visionCatScore
  refine add_nonneg (add_nonneg ?_ ?_) ?_
  · exact minOnePts_nonneg
      (div_nonneg (div_nonneg (Nat.cast_nonneg _) (totalVision_pos ps).le) (by norm_num))
      (by norm_num)
  · exact minOnePts_nonneg
      (div_nonneg (div_nonneg (Nat.cast_nonneg _) hmin.le) (by norm_num)) (by norm_num)
  · exact min_cap_nonneg (by positivity) (by norm_num)

lemma utilityScore_nonneg (ps : List MatchParticipant) (p : MatchParticipant) :
    0 ≤ utilityScore ps p := by
  unfold utilityScore
  refine add_nonneg (add_nonneg ?_ ?_) ?_
  · exact minOnePts_nonneg
      (div_nonneg (div_nonneg (Nat.cast_nonneg _) (totalCC_pos ps).le) (by norm_num))
      (by norm_num)
  · exact minOnePts_nonneg
      (div_nonneg (div_nonneg (by positivity) (totalHealing_pos ps).le) (by norm_num))
      (by norm_num)
  · exact minOnePts_nonneg
      (div_nonneg (div_nonneg (Nat.cast_nonneg _) (totalDmgTaken_pos ps).le) (by norm_num))
      (by norm_num)

lemma clutchScore_nonneg (d : ℚ) (p : MatchParticipant) (hd : 0 < d) :
    0 ≤ clutchScore d p := by
  have hmin : (0:ℚ) < d / 60 := by positivity
  unfold clutchScore
  refine min_cap_nonneg ?_ (by norm_num)
  refine add_nonneg (add_nonneg (add_nonneg (add_nonneg ?_ ?_) ?_) ?_) ?_
  · refine add_nonneg ?_ ?_ <;> split <;> norm_num
  · refine add_nonneg ?_ ?_ <;> split <;> norm_num
  · exact minOnePts_nonneg
      (div_nonneg (div_nonneg (Nat.cast_nonneg _) hmin.le) (by norm_num)) (by norm_num)
  · exact minOnePts_nonneg (div_nonneg (Nat.cast_nonneg _) (by positivity)) (by norm_num)
  · exact minOnePts_nonneg (div_nonneg (Nat.cast_nonneg _) (by norm_num)) (by norm_num)

lemma winContributionScore_nonneg (ps : List MatchParticipant) (p : MatchParticipant) :
    0 ≤ winContributionScore ps p := by
  have hk : (0:ℚ) < myTeamKills ps p + 1 := by
    have := myTeamKills_pos ps p
    linarith
  unfold winContributionScore
  refine min_cap_nonneg (mul_nonneg (mul_nonneg ?_ ?_) (by norm_num)) (by norm_num)
  · refine add_nonneg (add_nonneg ?_ ?_) ?_
    · exact mul_nonneg (div_nonneg (Nat.cast_nonneg _) hk.le) (by norm_num)
    · exact mul_nonneg (div_nonneg (Nat.cast_nonneg _) (myTeamDmg_pos ps p).le) (by norm_num)
    · exact mul_nonneg (div_nonneg (Nat.cast_nonneg _) (myTeamGold_pos ps p).le) (by norm_num)
  · split <;> norm_num

lemma calculateMatchImpact_nonneg (p : MatchParticipant) (d : ℚ) :
    0 ≤ calculateMatchImpact p d := by
  simp only [calculateMatchImpact]
  by_cases h : d / 60 ≤ 0
  · rw [if_pos h]
  · rw [if_neg h]
    exact le_min (le_max_right _ _) (by norm_num)

lemma calculateMatchImpact_le_ten (p : MatchParticipant) (d : ℚ) :
    calculateMatchImpact p d ≤ 10 := by
  simp only [calculateMatchImpact]
  by_cases h : d / 60 ≤ 0
  · rw [if_pos h]
    norm_num
  · rw [if_neg h]
    exact min_le_right _ _

lemma breakdownOf_nonneg (ps : List MatchParticipant) (d : ℚ) (p : MatchParticipant)
    (hd : 0 < d) : (breakdownOf ps d p).Nonneg :=
  ⟨combatScore_nonneg ps d p, damageScore_nonneg ps d p hd, objectivesScore_nonneg ps p,
   economyScore_nonneg ps d p hd, visionCatScore_nonneg ps d p hd, utilityScore_nonneg ps p,
   clutchScore_nonneg d p hd, calculateMatchImpact_nonneg p d,
   winContributionScore_nonneg ps p⟩

lemma roleWeights_positive (pos : String) : (roleWeights pos).Positive := by
  unfold roleWeights RoleWeight.Positive
  split_ifs <;> norm_num

lemma roleMax_pos (w : RoleWeight) (hw : w.Positive) : 0 < roleMax w := by
  obtain ⟨h1, h2, h3, h4, h5, h6, h7, h8, h9⟩ := hw
  unfold roleMax
  have := mul_pos (show (0:ℚ) < 25 by norm_num) h1
  have := mul_pos (show (0:ℚ) < 18 by norm_num) h2
  have := mul_pos (show (0:ℚ) < 20 by norm_num) h3
  have := mul_pos (show (0:ℚ) < 10 by norm_num) h4
  have := mul_pos (show (0:ℚ) < 8 by norm_num) h5
  have := mul_pos (show (0:ℚ) < 12 by norm_num) h6
  have := mul_pos (show (0:ℚ) < 12 by norm_num) h7
  have := mul_pos (show (0:ℚ) < 10 by norm_num) h8
  have := mul_pos (show (0:ℚ) < 10 by norm_num) h9
  linarith

lemma weightedTotal_nonneg (w : RoleWeight) (b : Breakdown) (hw : w.Positive)
    (hb : b.Nonneg) : 0 ≤ weightedTotal w b := by
  obtain ⟨w1, w2, w3, w4, w5, w6, w7, w8, w9⟩ := hw
  obtain ⟨b1, b2, b3, b4, b5, b6, b7, b8, b9⟩ := hb
  unfold weightedTotal
  have := mul_nonneg b1 w1.le
  have := mul_nonneg b2 w2.le
  have := mul_nonneg b3 w3.le
  have := mul_nonneg b4 w4.le
  have := mul_nonneg b5 w5.le
  have := mul_nonneg b6 w6.le
  have := mul_nonneg b7 w7.le
  have := mul_nonneg b8 w8.le
  have := mul_nonneg b9 w9.le
  linarith

lemma scoreEntry_score_nonneg (ps : List MatchParticipant) (d : ℚ) (p : MatchParticipant)
    (hd : 0 < d) : 0 ≤ (scoreEntry ps d p).score := by
  rw [scoreEntry_score]
  refine le_min ?_ (by norm_num)
  have hw := roleWeights_positive p.teamPosition
  exact mul_nonneg
    (div_nonneg (weightedTotal_nonneg _ _ hw (breakdownOf_nonneg ps d p hd))
      (roleMax_pos _ hw).le)
    (by norm_num)

lemma scoreEntry_score_le_hundred (ps : List MatchParticipant) (d : ℚ)
    (p : MatchParticipant) : (scoreEntry ps d p).score ≤ 100 := by
  rw [scoreEntry_score]
  exact min_le_right _ _

/-- Claim C3: with positive duration (and the non-negative counters the
`ℕ`-valued fields guarantee), every entry of the ranker output carries the
normalized score of one of the participants: the role-weighted sum of its 9
category scores divided by that role's maximum, scaled to 100 and clamped —
hence every normalized score lies in [0,100]. -/
theorem rankPlayersInMatch_score_normalized (ps : List MatchParticipant) (d : ℚ)
    (hd : 0 < d) :
    ∀ e ∈ rankPlayersInMatch ps d,
      (∃ p ∈ ps, e.1 = p.puuid ∧
        e.2.score = min (weightedTotal (roleWeights p.teamPosition) e.2.breakdown /
          roleMax (roleWeights p.teamPosition) * 100) 100) ∧
      0 ≤ e.2.score ∧ e.2.score ≤ 100 := by
  intro e he
  have hguard : ¬ (d / 60 ≤ 0) := fun h => absurd (div_sixty_nonpos_iff.mp h) (not_le.mpr hd)
  unfold rankPlayersInMatch at he
  rw [if_neg hguard] at he
  obtain ⟨s, hs, h1, h2, h3⟩ := mem_rankFrom 0 _ (buildMap_mem _ he)
  rw [List.mem_insertionSort, List.mem_map] at hs
  obtain ⟨p, hp, rfl⟩ := hs
  refine ⟨⟨p, hp, ?_, ?_⟩, ?_, ?_⟩
  · rw [h1, scoreEntry_puuid]
  · rw [h2, h3, scoreEntry_score, scoreEntry_breakdown]
  · rw [h2]
    exact scoreEntry_score_nonneg ps d p hd
  · rw [h2]
    exact scoreEntry_score_le_hundred ps d p

lemma roleWeights_default : roleWeights "" = ⟨1, 1, 1, 1, 1, 1, 1, 1, 1⟩ := by
  simp [roleWeights]
  norm_num

lemma rank_single_eval : rankPlayersInMatch [baseP] 60 =
    [("", ⟨1, 0, ⟨0, 0, 0, 0, 0, 0, 0, 0, 0⟩⟩)] := by
  have hse : scoreEntry [baseP] 60 baseP = ⟨"", 0, ⟨0, 0, 0, 0, 0, 0, 0, 0, 0⟩⟩ := by
    norm_num [scoreEntry, breakdownOf, combatScore, damageScore, objectivesScore,
      economyScore, visionCatScore, utilityScore, clutchScore, winContributionScore,
      calculateMatchImpact, weightedTotal, roleMax, roleWeights_default, totalKills,
      totalDmg, totalGold, totalVision, totalDmgTaken, totalObjDmg, totalCC, totalHealing,
      myTeamKills, myTeamGold, myTeamDmg, teamKillsSum, teamGoldSum, teamDmgSum, sumQ,
      baseP, min_def, max_def]
  rw [rankPlayersInMatch, if_neg (by norm_num : ¬ ((60:ℚ) / 60 ≤ 0))]
  rw [show ([baseP].map (scoreEntry [baseP] 60)) = [scoreEntry [baseP] 60 baseP] from rfl,
    hse]
  rfl

/-- Witness for C3 at a concrete one-participant input. -/
theorem rankPlayersInMatch_score_normalized_witness :
    (∃ p ∈ [baseP], ("", (⟨1, 0, ⟨0, 0, 0, 0, 0, 0, 0, 0, 0⟩⟩ : PlayerScore)).1 = p.puuid ∧
      ("", (⟨1, 0, ⟨0, 0, 0, 0, 0, 0, 0, 0, 0⟩⟩ : PlayerScore)).2.score =
        min (weightedTotal (roleWeights p.teamPosition)
          ("", (⟨1, 0, ⟨0, 0, 0, 0, 0, 0, 0, 0, 0⟩⟩ : PlayerScore)).2.breakdown /
          roleMax (roleWeights p.teamPosition) * 100) 100) ∧
    0 ≤ ("", (⟨1, 0, ⟨0, 0, 0, 0, 0, 0, 0, 0, 0⟩⟩ : PlayerScore)).2.score ∧
    ("", (⟨1, 0, ⟨0, 0, 0, 0, 0, 0, 0, 0, 0⟩⟩ : PlayerScore)).2.score ≤ 100 :=
  rankPlayersInMatch_score_normalized [baseP] 60 (by norm_num)
    ("", ⟨1, 0, ⟨0, 0, 0, 0, 0, 0, 0, 0, 0⟩⟩)
    (by rw [rank_single_eval]; exact List.mem_singleton.mpr rfl)

/-- Claim C5: with positive duration and pairwise-distinct player ids, the
map returned by the ranker has an entry for each participant, and the
`impact` component of that entry's category breakdown is exactly the
standalone ImpactScorer result for the same participant and duration. -/
theorem rankPlayersInMatch_impact_entry (ps : List MatchParticipant) (d : ℚ)
    (p : MatchParticipant) (hd : 0 < d) (hnodup : (ps.map fun q => q.puuid).Nodup)
    (hp : p ∈ ps) :
    (∃ e ∈ rankPlayersInMatch ps d, e.1 = p.puuid) ∧
    ∀ e ∈ rankPlayersInMatch ps d, e.1 = p.puuid →
      e.2.breakdown.impact = calculateMatchImpact p d := by
  have hm := rankPlayersInMatch_eq_rankFrom ps d hnodup hd
  constructor
  · rw [hm]
    have hs : scoreEntry ps d p ∈ List.insertionSort scoreGE (ps.map (scoreEntry ps d)) :=
      (List.mem_insertionSort scoreGE).mpr (List.mem_map_of_mem (scoreEntry ps d) hp)
    obtain ⟨e, he, hkey⟩ := mem_rankFrom_of_mem 0 _ hs
    exact ⟨e, he, by rw [hkey, scoreEntry_puuid]⟩
  · intro e he hkey
    rw [hm] at he
    obtain ⟨s, hs, h1, _, h3⟩ := mem_rankFrom 0 _ he
    rw [List.mem_insertionSort, List.mem_map] at hs
    obtain ⟨q, hq, rfl⟩ := hs
    have hqp : q = p := by
      have hinj := List.inj_on_of_nodup_map hnodup
      exact hinj hq hp (by rw [← scoreEntry_puuid ps d q, ← h1, hkey])
    rw [h3, scoreEntry_breakdown, hqp]
    rfl

/-- Witness for C5 at a concrete one-participant input. -/
theorem rankPlayersInMatch_impact_entry_witness :
    (∃ e ∈ rankPlayersInMatch [baseP] 60, e.1 = baseP.puuid) ∧
    ∀ e ∈ rankPlayersInMatch [baseP] 60, e.1 = baseP.puuid →
      e.2.breakdown.impact = calculateMatchImpact baseP 60 :=
  rankPlayersInMatch_impact_entry [baseP] 60 baseP (by norm_num) (by simp)
    (List.mem_singleton.mpr rfl)

lemma roleWeights_top :
    roleWeights "TOP" = ⟨23/20, 1, 11/10, 1, 17/20, 23/20, 19/20, 1, 1⟩ := by
  simp [roleWeights]
  norm_num

lemma tenPs_scoreEntry_top : scoreEntry tenPs 60 (pW "p1" "TOP") =
    ⟨"p1", 400/523, ⟨0, 0, 0, 0, 0, 0, 0, 1, 0⟩⟩ := by
  norm_num [scoreEntry, breakdownOf, combatScore, damageScore, objectivesScore,
    economyScore, visionCatScore, utilityScore, clutchScore, winContributionScore,
    calculateMatchImpact, weightedTotal, roleMax, roleWeights_top, totalKills, totalDmg,
    totalGold, totalVision, totalDmgTaken, totalObjDmg, totalCC, totalHealing, myTeamKills,
    myTeamGold, myTeamDmg, teamKillsSum, teamGoldSum, teamDmgSum, sumQ, tenPs, pW, baseP,
    min_def, max_def]

lemma tenPs_scoreEntry_default (id : String) : scoreEntry tenPs 60 (pW id "") =
    ⟨id, 4/5, ⟨0, 0, 0, 0, 0, 0, 0, 1, 0⟩⟩ := by
  norm_num [scoreEntry, breakdownOf, combatScore, damageScore, objectivesScore,
    economyScore, visionCatScore, utilityScore, clutchScore, winContributionScore,
    calculateMatchImpact, weightedTotal, roleMax, roleWeights_default, totalKills, totalDmg,
    totalGold, totalVision, totalDmgTaken, totalObjDmg, totalCC, totalHealing, myTeamKills,
    myTeamGold, myTeamDmg, teamKillsSum, teamGoldSum, teamDmgSum, sumQ, tenPs, pW, baseP,
    min_def, max_def]

set_option maxHeartbeats 1000000 in
lemma tenPs_scores_eval : ((rankPlayersInMatch tenPs 60).map fun e => e.2.score) =
    [4/5, 4/5, 4/5, 4/5, 4/5, 4/5, 4/5, 4/5, 4/5, 400/523] := by
  rw [rankPlayersInMatch, if_neg (by norm_num : ¬ ((60:ℚ) / 60 ≤ 0))]
  rw [show tenPs.map (scoreEntry tenPs 60) =
    [scoreEntry tenPs 60 (pW "p1" "TOP"), scoreEntry tenPs 60 (pW "p2" ""),
     scoreEntry tenPs 60 (pW "p3" ""), scoreEntry tenPs 60 (pW "p4" ""),
     scoreEntry tenPs 60 (pW "p5" ""), scoreEntry tenPs 60 (pW "p6" ""),
     scoreEntry tenPs 60 (pW "p7" ""), scoreEntry tenPs 60 (pW "p8" ""),
     scoreEntry tenPs 60 (pW "p9" ""), scoreEntry tenPs 60 (pW "p10" "")] from rfl]
  rw [tenPs_scoreEntry_top, tenPs_scoreEntry_default, tenPs_scoreEntry_default,
    tenPs_scoreEntry_default, tenPs_scoreEntry_default, tenPs_scoreEntry_default,
    tenPs_scoreEntry_default, tenPs_scoreEntry_default, tenPs_scoreEntry_default,
    tenPs_scoreEntry_default]
  norm_num [List.insertionSort, List.orderedInsert, scoreGE, buildMap, mapSet, rankFrom,
    min_def, max_def]
  simp

/-- Counterexample to C9 as stated: the ten participants of `tenPs` agree on
every numeric counter and win flag, yet their normalized EdgeScores are not
all equal (a TOP-labelled participant normalizes against a different
role maximum than an unlabelled one). -/
theorem tied_counters_unequal_scores :
    (∀ p ∈ tenPs, rawStats p = rawStats (pW "p1" "TOP")) ∧
    tenPs.length = 10 ∧ (tenPs.map fun p => p.puuid).Nodup ∧
    ((rankPlayersInMatch tenPs 60).map fun e => e.2.score) =
      [4/5, 4/5, 4/5, 4/5, 4/5, 4/5, 4/5, 4/5, 4/5, 400/523] ∧
    ((4:ℚ)/5 ≠ 400/523) :=
  ⟨by decide, by decide, by simp [tenPs, pW, baseP], tenPs_scores_eval, by norm_num⟩

lemma scoreEntry_withPuuid (ps : List MatchParticipant) (d : ℚ) (q : MatchParticipant)
    (id : String) :
    scoreEntry ps d (withPuuid q id) =
      ⟨id, (scoreEntry ps d q).score, (scoreEntry ps d q).breakdown⟩ := rfl

lemma insertionSort_of_all_rel (l : List ScoredEntry)
    (h : ∀ a ∈ l, ∀ b ∈ l, scoreGE a b) : List.insertionSort scoreGE l = l := by
  induction l with
  | nil => rfl
  | cons x xs ih =>
    rw [List.insertionSort_cons scoreGE
      (fun b hb => h x (List.mem_cons_self x xs) b (List.mem_cons_of_mem x hb))]
    rw [ih fun a ha b hb =>
      h a (List.mem_cons_of_mem x ha) b (List.mem_cons_of_mem x hb)]

/-- Claim C9 amended: when the ten participants agree on every input field
except the player id (same counters, win flags, role label and team id) and
their ids are pairwise distinct, all normalized scores are equal and the
stable sort keeps the input order: the map lists the participants in array
order with ranks 1..10. -/
theorem tied_participants_input_order (ps : List MatchParticipant) (d : ℚ)
    (q : MatchParticipant) (hlen : ps.length = 10)
    (hnodup : (ps.map fun p => p.puuid).Nodup) (hd : 0 < d)
    (hq : ∀ p ∈ ps, p = withPuuid q p.puuid) :
    (∀ e ∈ rankPlayersInMatch ps d, ∀ f ∈ rankPlayersInMatch ps d,
      e.2.score = f.2.score) ∧
    ((rankPlayersInMatch ps d).map fun e => e.2.rank) = [1, 2, 3, 4, 5, 6, 7, 8, 9, 10] ∧
    ((rankPlayersInMatch ps d).map Prod.fst) = ps.map fun p => p.puuid := by
  have hm := rankPlayersInMatch_eq_rankFrom ps d hnodup hd
  have hscore : ∀ s ∈ ps.map (scoreEntry ps d), s.score = (scoreEntry ps d q).score := by
    intro s hs
    rw [List.mem_map] at hs
    obtain ⟨p, hp, rfl⟩ := hs
    rw [hq p hp, scoreEntry_withPuuid]
  have hsort : List.insertionSort scoreGE (ps.map (scoreEntry ps d)) =
      ps.map (scoreEntry ps d) :=
    insertionSort_of_all_rel _ fun a ha b hb => by
      unfold scoreGE
      rw [hscore a ha, hscore b hb]
  refine ⟨?_, ?_, ?_⟩
  · intro e he f hf
    rw [hm, hsort] at he hf
    obtain ⟨s, hs, _, h2, _⟩ := mem_rankFrom 0 _ he
    obtain ⟨t, ht, _, h2', _⟩ := mem_rankFrom 0 _ hf
    rw [h2, h2', hscore s hs, hscore t ht]
  · rw [hm, hsort, rankFrom_map_rank, List.length_map, hlen]
    rfl
  · rw [hm, hsort, rankFrom_map_fst, List.map_map]
    rfl

/-- Witness for the amended C9 at a concrete tied 10-participant input. -/
theorem tied_participants_input_order_witness :
    (∀ e ∈ rankPlayersInMatch tenSame 60, ∀ f ∈ rankPlayersInMatch tenSame 60,
      e.2.score = f.2.score) ∧
    ((rankPlayersInMatch tenSame 60).map fun e => e.2.rank) =
      [1, 2, 3, 4, 5, 6, 7, 8, 9, 10] ∧
    ((rankPlayersInMatch tenSame 60).map Prod.fst) = tenSame.map fun p => p.puuid :=
  tied_participants_input_order tenSame 60 (pW "p1" "") (by decide)
    (by simp [tenSame, pW, baseP]) (by norm_num) (by decide)

lemma find?_eq_none_of_hasTarget_false {pid : String} {m : MatchData}
    (h : hasTarget pid m = false) :
    (m.participants.find? fun p => p.puuid == pid) = none := by
  rw [List.find?_eq_none]
  intro p hp
  simp only [hasTarget, List.any_eq_false] at h
  exact h p hp

lemma recentStep_skip {pid : String} (st : RecentState) {m : MatchData}
    (h : hasTarget pid m = false) : recentStep pid st m = st := by
  unfold recentStep
  rw [find?_eq_none_of_hasTarget_false h]

lemma seasonStep_skip {pid : String} (st : SeasonState) {m : MatchData}
    (h : hasTarget pid m = false) : seasonStep pid st m = st := by
  unfold seasonStep
  rw [find?_eq_none_of_hasTarget_false h]

lemma foldl_skip {σ : Type} (step : σ → MatchData → σ) (keep : MatchData → Bool)
    (hstep : ∀ st m, keep m = false → step st m = st) :
    ∀ (ms : List MatchData) (st : σ),
      ms.foldl step st = (ms.filter keep).foldl step st := by
  intro ms
  induction ms with
  | nil => intro st; rfl
  | cons m rest ih =>
    intro st
    by_cases h : keep m
    · rw [List.foldl_cons, List.filter_cons_of_pos h, List.foldl_cons, ih]
    · rw [List.foldl_cons, hstep st m (by simpa using h),
        List.filter_cons_of_neg (by simpa using h), ih]

lemma recentFinalize_init : recentFinalize recentInit = emptyRecent := by
  norm_num [recentFinalize, recentInit, emptyRecent]

lemma seasonFinalize_init : seasonFinalize seasonInit = emptySeason := by
  norm_num [seasonFinalize, seasonInit, emptySeason]

/-- Claim C6: a match without a snapshot of the target player contributes to
no output of either aggregation window: aggregating any match list gives the
same result as aggregating its sublist of matches that contain the target. -/
theorem aggregation_skips_absent (ms : List MatchData) (pid : String) :
    recentAnalysis ms pid = recentAnalysis (ms.filter (hasTarget pid)) pid ∧
    seasonAnalysis ms pid = seasonAnalysis (ms.filter (hasTarget pid)) pid := by
  have hr := foldl_skip (recentStep pid) (hasTarget pid)
    (fun st m h => recentStep_skip st h) ms recentInit
  have hs := foldl_skip (seasonStep pid) (hasTarget pid)
    (fun st m h => seasonStep_skip st h) ms seasonInit
  by_cases hms : ms.isEmpty
  · have : ms = [] := List.isEmpty_iff.mp hms
    subst this
    exact ⟨rfl, rfl⟩
  · by_cases hf : (ms.filter (hasTarget pid)).isEmpty
    · have hfe : ms.filter (hasTarget pid) = [] := List.isEmpty_iff.mp hf
      constructor
      · rw [recentAnalysis, if_neg (by simpa using hms), recentAnalysis, if_pos hf, hr, hfe]
        exact recentFinalize_init
      · rw [seasonAnalysis, if_neg (by simpa using hms), seasonAnalysis, if_pos hf, hs, hfe]
        exact seasonFinalize_init
    · constructor
      · rw [recentAnalysis, if_neg (by simpa using hms), recentAnalysis,
          if_neg (by simpa using hf), hr]
      · rw [seasonAnalysis, if_neg (by simpa using hms), seasonAnalysis,
          if_neg (by simpa using hf), hs]

lemma scP_proj (k cs dmg gold vs objD inh : ℕ) :
    (scP k cs dmg gold vs objD inh).puuid = "me" ∧
    (scP k cs dmg gold vs objD inh).teamPosition = "" ∧
    (scP k cs dmg gold vs objD inh).win = true ∧
    (scP k cs dmg gold vs objD inh).kills = k ∧
    (scP k cs dmg gold vs objD inh).deaths = 0 ∧
    (scP k cs dmg gold vs objD inh).assists = 0 :=
  ⟨rfl, rfl, rfl, rfl, rfl, rfl⟩

lemma meLoss_proj :
    meLoss.puuid = "me" ∧ meLoss.teamPosition = "" ∧ meLoss.win = false ∧
    meLoss.kills = 0 ∧ meLoss.deaths = 0 ∧ meLoss.assists = 0 :=
  ⟨rfl, rfl, rfl, rfl, rfl, rfl⟩

lemma impact_zero_win : calculateMatchImpact (scP 0 0 0 0 0 0 0) 60 = 1 := by
  norm_num [calculateMatchImpact, scP, baseP, min_def, max_def]

lemma impact_zero_loss : calculateMatchImpact meLoss 60 = 0 := by
  norm_num [calculateMatchImpact, meLoss, baseP, min_def, max_def]

lemma cex6_eval : (recentAnalysis cex6 "me").impactScores = [1, 1, 1, 1, 1, 0] ∧
    (recentAnalysis cex6 "me").recentTrend = 1 := by
  have h : recentAnalysis cex6 "me" =
      recentFinalize ⟨[1, 1, 1, 1, 1, 0], [], 0, 0, 0, 5, 1⟩ := by
    rw [recentAnalysis, if_neg (by simp [cex6])]
    simp [cex6, mkM, recentStep, recentInit, List.find?, normalizePosition,
      scP_proj, meLoss_proj, impact_zero_win, impact_zero_loss]
  rw [h]
  norm_num [recentFinalize]

/-- Counterexample to C4 as stated: for the six-match window `cex6` the
second slice has 1 < 5 entries, yet the code's trend subtracts the average
of that non-empty slice (giving 1), not the window average as the claim
mandates whenever the slice has fewer than 5 entries (which would give
1 − 5/6 = 1/6). -/
theorem trend_counterexample :
    (recentAnalysis cex6 "me").impactScores = [1, 1, 1, 1, 1, 0] ∧
    ((recentAnalysis cex6 "me").impactScores.drop 5).length < 5 ∧
    (recentAnalysis cex6 "me").recentTrend = 1 ∧
    listAvg ((recentAnalysis cex6 "me").impactScores.take 5) -
      listAvg (recentAnalysis cex6 "me").impactScores ≠
      (recentAnalysis cex6 "me").recentTrend := by
  obtain ⟨h1, h2⟩ := cex6_eval
  refine ⟨h1, by rw [h1]; norm_num, h2, ?_⟩
  rw [h1, h2]
  norm_num [listAvg]

/-- Claim C4 amended: `trend = avg(first 5) − avg(slice at indices 5–9)`,
and the fallback that replaces the second average by the window's overall
average applies only when that second slice is empty (not whenever it has
fewer than 5 entries); in particular a 7-match window [8,7,9,6,5,4,3] gives
trend 7.0 − 3.5 = 3.5. -/
theorem trend_second_slice (ms : List MatchData) (pid : String)
    (h : (recentAnalysis ms pid).impactScores.drop 5 ≠ []) :
    (recentAnalysis ms pid).recentTrend =
      listAvg ((recentAnalysis ms pid).impactScores.take 5) -
      listAvg (((recentAnalysis ms pid).impactScores.drop 5).take 5) := by
  by_cases hms : ms.isEmpty
  · rw [recentAnalysis, if_pos hms] at h ⊢
    simp [emptyRecent] at h
  · rw [recentAnalysis, if_neg hms] at h ⊢
    set st := ms.foldl (recentStep pid) recentInit with hst
    have hsc : (recentFinalize st).impactScores = st.impactScores := rfl
    rw [hsc] at h
    have hlen : 5 < st.impactScores.length := by
      by_contra hle
      exact h (List.drop_eq_nil_iff.mpr (by omega))
    have h5 : 0 < (st.impactScores.take 5).length := by
      rw [List.length_take]
      omega
    have hp5 : 0 < ((st.impactScores.drop 5).take 5).length := by
      rw [List.length_take, List.length_drop]
      omega
    show (recentFinalize st).recentTrend = _
    rw [hsc]
    unfold recentFinalize
    simp only [if_pos h5, if_pos hp5]
    rfl

lemma impact_sc1 : calculateMatchImpact (scP 8 7 800 450 3 300 0) 60 = 8 := by
  norm_num [calculateMatchImpact, scP, baseP, min_def, max_def]

lemma impact_sc2 : calculateMatchImpact (scP 8 7 800 0 3 300 0) 60 = 7 := by
  norm_num [calculateMatchImpact, scP, baseP, min_def, max_def]

lemma impact_sc3 : calculateMatchImpact (scP 8 7 800 450 3 600 1) 60 = 9 := by
  norm_num [calculateMatchImpact, scP, baseP, min_def, max_def]

lemma impact_sc4 : calculateMatchImpact (scP 8 7 800 0 0 300 0) 60 = 6 := by
  norm_num [calculateMatchImpact, scP, baseP, min_def, max_def]

lemma impact_sc5 : calculateMatchImpact (scP 8 0 800 0 0 300 0) 60 = 5 := by
  norm_num [calculateMatchImpact, scP, baseP, min_def, max_def]

lemma impact_sc6 : calculateMatchImpact (scP 8 0 0 0 0 300 0) 60 = 4 := by
  norm_num [calculateMatchImpact, scP, baseP, min_def, max_def]

lemma impact_sc7 : calculateMatchImpact (scP 6 0 0 0 0 0 0) 60 = 3 := by
  norm_num [calculateMatchImpact, scP, baseP, min_def, max_def]

lemma scenario7_eval : (recentAnalysis scenario7 "me").impactScores =
    [8, 7, 9, 6, 5, 4, 3] := by
  have h : recentAnalysis scenario7 "me" =
      recentFinalize ⟨[8, 7, 9, 6, 5, 4, 3], [], 54, 0, 0, 7, 0⟩ := by
    rw [recentAnalysis, if_neg (by simp [scenario7])]
    simp [scenario7, mkM, recentStep, recentInit, List.find?, normalizePosition,
      scP_proj, impact_sc1, impact_sc2, impact_sc3, impact_sc4, impact_sc5,
      impact_sc6, impact_sc7]
  rw [h]
  rfl

/-- Witness for the amended C4 at the 7-match scenario: the second slice is
[4, 3], non-empty, and the trend is 7 − 3.5 = 3.5. -/
theorem trend_second_slice_witness :
    (recentAnalysis scenario7 "me").impactScores.drop 5 ≠ [] ∧
    (recentAnalysis scenario7 "me").recentTrend = 7 - 7 / 2 := by
  have hne : (recentAnalysis scenario7 "me").impactScores.drop 5 ≠ [] := by
    rw [scenario7_eval]
    simp
  refine ⟨hne, ?_⟩
  rw [trend_second_slice scenario7 "me" hne, scenario7_eval]
  norm_num [listAvg]

/-- Claim C7: the stability output is the "insufficient data" sentinel
exactly when the window has fewer than 5 impact samples; with at least 5
samples it classifies the population standard deviation of the window as
"high" when < 1, "medium" when in [1, 2), and "low" when ≥ 2. -/
theorem getStability_classification (scores : List ℚ) (avg : ℚ) :
    (getStability scores avg = "Mało danych" ↔ scores.length < 5) ∧
    (5 ≤ scores.length →
      ((getStability scores avg = "Wysoka" ↔
          Real.sqrt ((varOf scores avg : ℚ) : ℝ) < 1) ∧
       (getStability scores avg = "Średnia" ↔
          1 ≤ Real.sqrt ((varOf scores avg : ℚ) : ℝ) ∧
          Real.sqrt ((varOf scores avg : ℚ) : ℝ) < 2) ∧
       (getStability scores avg = "Niska" ↔
          2 ≤ Real.sqrt ((varOf scores avg : ℚ) : ℝ)))) := by
  have h1 : Real.sqrt ((varOf scores avg : ℚ) : ℝ) < 1 ↔ varOf scores avg < 1 := by
    rw [Real.sqrt_lt' (by norm_num : (0:ℝ) < 1)]
    constructor
    · intro h
      exact_mod_cast (by norm_num at h; exact h : ((varOf scores avg : ℚ) : ℝ) < 1)
    · intro h
      norm_num
      exact_mod_cast h
  have h2 : Real.sqrt ((varOf scores avg : ℚ) : ℝ) < 2 ↔ varOf scores avg < 4 := by
    rw [Real.sqrt_lt' (by norm_num : (0:ℝ) < 2)]
    constructor
    · intro h
      exact_mod_cast (by norm_num at h; exact h : ((varOf scores avg : ℚ) : ℝ) < 4)
    · intro h
      norm_num
      exact_mod_cast h
  unfold getStability
  by_cases hlen : scores.length < 5
  · rw [if_pos hlen]
    exact ⟨by simp [hlen], fun h => absurd hlen (by omega)⟩
  · rw [if_neg hlen]
    by_cases hv1 : varOf scores avg < 1
    · rw [if_pos hv1]
      have hS := h1.mpr hv1
      refine ⟨by simp [hlen], fun _ => ⟨by simp [hS], ?_, ?_⟩⟩
      · exact ⟨fun habs => absurd habs (by decide),
          fun hc => absurd hc.1 (not_le.mpr hS)⟩
      · exact ⟨fun habs => absurd habs (by decide),
          fun hc => absurd hc (not_le.mpr (by linarith))⟩
    · rw [if_neg hv1]
      have hSge : 1 ≤ Real.sqrt ((varOf scores avg : ℚ) : ℝ) :=
        not_lt.mp fun hc => hv1 (h1.mp hc)
      by_cases hv4 : varOf scores avg < 4
      · rw [if_pos hv4]
        have hS2 := h2.mpr hv4
        refine ⟨by simp [hlen], fun _ => ⟨?_, by simp [hSge, hS2], ?_⟩⟩
        · exact ⟨fun habs => absurd habs (by decide),
            fun hc => absurd hc (not_lt.mpr hSge)⟩
        · exact ⟨fun habs => absurd habs (by decide),
            fun hc => absurd hc (not_le.mpr hS2)⟩
      · rw [if_neg hv4]
        have hS2 : 2 ≤ Real.sqrt ((varOf scores avg : ℚ) : ℝ) :=
          not_lt.mp fun hc => hv4 (h2.mp hc)
        refine ⟨by simp [hlen], fun _ => ⟨?_, ?_, by simp [hS2]⟩⟩
        · exact ⟨fun habs => absurd habs (by decide),
            fun hc => absurd hc (not_lt.mpr (by linarith))⟩
        · exact ⟨fun habs => absurd habs (by decide),
            fun hc => absurd hc.2 (not_lt.mpr (by linarith))⟩

/-- Witness for C7: five zero samples classify as "Wysoka" (high), and a
single sample yields the sentinel. -/
theorem getStability_classification_witness :
    getStability [0, 0, 0, 0, 0] 0 = "Wysoka" ∧ getStability [4] 0 = "Mało danych" := by
  constructor
  · have h := ((getStability_classification [0, 0, 0, 0, 0] 0).2 (by norm_num)).1
    refine h.mpr ?_
    have hv : varOf [0, 0, 0, 0, 0] 0 = 0 := by norm_num [varOf]
    rw [hv]
    norm_num [Real.sqrt_zero]
  · exact (getStability_classification [4] 0).1.mpr (by norm_num)

/-- Counterexample to C8 as stated: the best-champion metric is computed
over champions with ≥ 3 games, so champion A with only 3 games determines
it (win rate 100%), and the strength rule then stays silent even though B
is a ≥5-games champion with an 80% ≥ 70% win rate. -/
theorem bestChamp_counterexample :
    bestChamp [champA, champB] = some ⟨"A", 100, 3⟩ ∧
    champA.games < 5 ∧ 5 ≤ champB.games ∧
    jsRound (champWr champB * 100) = 80 ∧ (70:ℤ) ≤ 80 ∧
    bestChampRule [champA, champB] = none := by
  have h1 : bestChamp [champA, champB] = some ⟨"A", 100, 3⟩ := by
    rw [bestChamp]
    rw [show ([champA, champB].filter fun c => 3 ≤ c.games) = [champA, champB] by rfl]
    rw [if_neg (by simp)]
    rw [show List.insertionSort wrGE [champA, champB] = [champA, champB] by
      simp [List.insertionSort, List.orderedInsert, wrGE, champWr, champA, champB]
      norm_num]
    simp [champA, champB, champWr, jsRound]
    norm_num [Int.floor_eq_iff]
  refine ⟨h1, by norm_num [champA], by norm_num [champB], ?_, by norm_num, ?_⟩
  · simp [champB, champWr, jsRound]
    norm_num [Int.floor_eq_iff]
  · rw [bestChampRule, h1]
    norm_num

/-- Claim C8 amended: `bestChamp` is the highest-win-rate champion among
those with at least 3 games (not 5); the strength rule fires only when that
champion additionally has ≥ 5 games and win rate ≥ 70%, and whenever it
fires, the referenced champion's raw win rate is at least that of every
champion with ≥ 5 games. -/
theorem bestChampRule_fires (champs : List ChampionStats) (bc : BestChamp)
    (h : bestChampRule champs = some bc) :
    5 ≤ bc.games ∧ 70 ≤ bc.winrate ∧
    ∃ best ∈ champs, 3 ≤ best.games ∧
      bc = ⟨best.name, jsRound (champWr best * 100), best.games⟩ ∧
      ∀ c ∈ champs, 5 ≤ c.games → champWr c ≤ champWr best := by
  rw [bestChampRule] at h
  rcases hbc : bestChamp champs with _ | bc'
  · rw [hbc] at h
    exact Option.noConfusion h
  rw [hbc] at h
  dsimp only at h
  by_cases hcond : 70 ≤ bc'.winrate ∧ 5 ≤ bc'.games
  case neg =>
    rw [if_neg hcond] at h
    exact Option.noConfusion h
  rw [if_pos hcond] at h
  obtain rfl : bc' = bc := by simpa using h
  rw [bestChamp] at hbc
  by_cases hemp : (champs.filter fun c => 3 ≤ c.games).isEmpty
  case pos =>
    rw [if_pos hemp] at hbc
    exact Option.noConfusion hbc
  rw [if_neg hemp] at hbc
  rcases hsorted : List.insertionSort wrGE (champs.filter fun c => 3 ≤ c.games) with
    _ | ⟨best, rest⟩
  · rw [hsorted] at hbc
    exact Option.noConfusion hbc
  · rw [hsorted] at hbc
    simp only [Option.some.injEq] at hbc
    have hbestmem : best ∈ champs.filter fun c => 3 ≤ c.games := by
      have hmem : best ∈ List.insertionSort wrGE (champs.filter fun c => 3 ≤ c.games) := by
        rw [hsorted]
        exact List.mem_cons_self best rest
      exact (List.mem_insertionSort wrGE).mp hmem
    have hbest3 := List.of_mem_filter hbestmem
    refine ⟨hbc ▸ hcond.2, hbc ▸ hcond.1, best, List.mem_of_mem_filter hbestmem,
      by simpa using hbest3, hbc.symm, ?_⟩
    intro c hc hc5
    have hcmem : c ∈ champs.filter fun c => 3 ≤ c.games :=
      List.mem_filter.mpr ⟨hc, by simpa using le_trans (by norm_num) hc5⟩
    have hcsort : c ∈ List.insertionSort wrGE (champs.filter fun c => 3 ≤ c.games) :=
      (List.mem_insertionSort wrGE).mpr hcmem
    rw [hsorted] at hcsort
    rcases (List.mem_cons).1 hcsort with rfl | hcr
    · exact le_refl _
    · have hsort := List.sorted_insertionSort wrGE (champs.filter fun c => 3 ≤ c.games)
      rw [hsorted] at hsort
      exact List.rel_of_sorted_cons hsort c hcr

/-- Witness for the amended C8: with one champion at 5 games, 4 wins the
rule fires and references it. -/
theorem bestChampRule_fires_witness :
    5 ≤ (⟨"B", 80, 5⟩ : BestChamp).games ∧ 70 ≤ (⟨"B", 80, 5⟩ : BestChamp).winrate ∧
    ∃ best ∈ [champB], 3 ≤ best.games ∧
      (⟨"B", 80, 5⟩ : BestChamp) = ⟨best.name, jsRound (champWr best * 100), best.games⟩ ∧
      ∀ c ∈ [champB], 5 ≤ c.games → champWr c ≤ champWr best := by
  refine bestChampRule_fires [champB] ⟨"B", 80, 5⟩ ?_
  have h1 : bestChamp [champB] = some ⟨"B", 80, 5⟩ := by
    rw [bestChamp]
    rw [show ([champB].filter fun c => 3 ≤ c.games) = [champB] by rfl]
    rw [if_neg (by simp)]
    rw [show List.insertionSort wrGE [champB] = [champB] from rfl]
    simp [champB, champWr, jsRound]
    norm_num [Int.floor_eq_iff]
  rw [bestChampRule, h1]
  norm_num
